import Mathlib

/-!
Verification of the YouTube-analyzer / technical-analysis utility layer of the
razorback_investing repository.  Python sources are shallowly embedded as Lean
functions; machine behaviour (regex component extraction, Python truthiness,
`str.format`, `str.isupper`, tenacity retry, JSON (de)serialisation) is
translated from the source files, and theorems settle the spec claims.
-/

set_option maxRecDepth 10000

namespace RazorbackUtils

/-- Numeric value of an ASCII digit character. -/
def digitVal (c : Char) : Nat := c.toNat - 48

mutual

/-- Models `re.search(r'(\d+)X', s)` for a single unit letter `target`:
returns the leftmost maximal digit run that is immediately followed by
`target`, as a number.  Translated from the regex extraction in
`iso_duration_to_minutes` (src/youtube_analyzer/libs/utils.py lines 17-21). -/
def findNumBefore (target : Char) : List Char → Option Nat
  | [] => none
  | h :: t => if h.isDigit then grabRun target (digitVal h) t else findNumBefore target t

/-- Helper of `findNumBefore`: extends the current digit run (`acc` is its value
so far) and checks the character after the run. -/
def grabRun (target : Char) (acc : Nat) : List Char → Option Nat
  | [] => none
  | h :: t =>
    if h.isDigit then grabRun target (acc * 10 + digitVal h) t
    else if h = target then some acc
    else findNumBefore target t

end

/-- `iso_duration_to_minutes` (src/youtube_analyzer/libs/utils.py lines 8-40):
extracts day/hour/minute/second components with `re.search(r'(\d+)D' ...)` and
sums them, rounding seconds up to the next whole minute; any component that is
absent contributes 0, and a `None`/non-string input (the only way the
`try/except` fires) is outside the string domain modelled here. -/
def iso_duration_to_minutes (duration : String) : Nat :=
  let cs := duration.toList
  let days := findNumBefore 'D' cs
  let hours := findNumBefore 'H' cs
  let minutes := findNumBefore 'M' cs
  let seconds := findNumBefore 'S' cs
  (days.getD 0) * 24 * 60 + (hours.getD 0) * 60 + (minutes.getD 0) +
    ((seconds.map (fun s => (s + 59) / 60)).getD 0)

/-- `p` is a prefix of the second list (literal character match). -/
def startsWithLit : List Char → List Char → Bool
  | [], _ => true
  | _ :: _, [] => false
  | p :: ps, c :: cs => p == c && startsWithLit ps cs

mutual

/-- Component sequence of an ISO-8601 duration body: digit runs each followed by
a unit letter, units drawn in order from `units`.  Spec-side helper for
`isValidIsoDuration`. -/
def seqValid (units : List Char) : List Char → Bool
  | [] => true
  | c :: cs => if c.isDigit then seqAfterNum units cs else false

def seqAfterNum (units : List Char) : List Char → Bool
  | [] => false
  | c :: cs =>
    if c.isDigit then seqAfterNum units cs
    else if units.contains c then
      seqValid ((units.dropWhile (fun u => u != c)).tail) cs
    else false

end

/-- Modelled from the spec: a valid ISO-8601 duration, i.e. `P` followed by
date components over units Y, M, W, D in order and, after an optional `T`, time
components over units H, M, S in order, each component a nonempty digit run,
with at least one component present.  This is the spec-side comparator used to
state claim C6's "invalid strings return 0". -/
def isValidIsoDuration (s : String) : Bool :=
  match s.toList with
  | 'P' :: rest =>
    let dateChars := rest.takeWhile (fun c => c != 'T')
    let afterT := rest.dropWhile (fun c => c != 'T')
    match afterT with
    | [] => !rest.isEmpty && seqValid ['Y', 'M', 'W', 'D'] dateChars
    | _ :: timeChars =>
      !timeChars.isEmpty && seqValid ['Y', 'M', 'W', 'D'] dateChars &&
        seqValid ['H', 'M', 'S'] timeChars
  | _ => false

end RazorbackUtils

open RazorbackUtils in
example : iso_duration_to_minutes "PT1H30M" = 90 := by decide

open RazorbackUtils in
example : iso_duration_to_minutes "P1DT2H30M" = 1590 := by decide

open RazorbackUtils in
example : isValidIsoDuration "PT1H30M" = true ∧ isValidIsoDuration "1M" = false := by decide

namespace TechnicalAnalysis

open RazorbackUtils

/-- Value at index `j` of `l.set i a` when `j ≠ i` is unchanged. -/
theorem getD_set_ne (l : List Int) (i j : Nat) (a : Int) (h : j ≠ i) :
    (l.set i a).getD j 0 = l.getD j 0 := by
  rw [List.getD_eq_getElem?_getD, List.getElem?_set_ne (fun he => h he.symm),
    ← List.getD_eq_getElem?_getD]

/-- Value at index `i` of `l.set i a` when `i` is in range. -/
theorem getD_set_self (l : List Int) (i : Nat) (a : Int) (h : i < l.length) :
    (l.set i a).getD i 0 = a := by
  rw [List.getD_eq_getElem?_getD, List.getElem?_set]
  simp [h]

theorem getD_replicate_zero (n i : Nat) : (List.replicate n (0 : Int)).getD i 0 = 0 := by
  rw [List.getD_eq_getElem?_getD, List.getElem?_replicate]
  split <;> rfl

section LoopLemmas

variable (f : List Int → Nat → List Int)

/-- A loop whose body only writes the current index leaves indices below the
start untouched. -/
theorem loop_getD_lt (hne : ∀ l i j, j ≠ i → (f l i).getD j 0 = l.getD j 0) :
    ∀ (k s : Nat) (l : List Int) (j : Nat), j < s →
      ((List.range' s k).foldl f l).getD j 0 = l.getD j 0 := by
  intro k
  induction k with
  | zero => intro s l j _; rfl
  | succ k ih =>
    intro s l j hj
    rw [List.range'_succ, List.foldl_cons, ih (s + 1) (f l s) j (by omega),
      hne l s j (by omega)]

/-- A loop whose body only writes the current index leaves indices at or beyond
the end of the range untouched. -/
theorem loop_getD_ge (hne : ∀ l i j, j ≠ i → (f l i).getD j 0 = l.getD j 0) :
    ∀ (k s : Nat) (l : List Int) (j : Nat), s + k ≤ j →
      ((List.range' s k).foldl f l).getD j 0 = l.getD j 0 := by
  intro k
  induction k with
  | zero => intro s l j _; rfl
  | succ k ih =>
    intro s l j hj
    rw [List.range'_succ, List.foldl_cons, ih (s + 1) (f l s) j (by omega),
      hne l s j (by omega)]

theorem loop_length (hlen : ∀ l i, (f l i).length = l.length) :
    ∀ (k s : Nat) (l : List Int), ((List.range' s k).foldl f l).length = l.length := by
  intro k
  induction k with
  | zero => intro s l; rfl
  | succ k ih =>
    intro s l
    rw [List.range'_succ, List.foldl_cons, ih (s + 1) (f l s), hlen l s]

theorem loop_range'_split (k K s : Nat) (l : List Int) (hk : k ≤ K) :
    (List.range' s K).foldl f l =
      (List.range' (s + k) (K - k)).foldl f ((List.range' s k).foldl f l) := by
  have h := List.range'_append s k (K - k) 1
  rw [Nat.one_mul] at h
  have hK : K - k + k = K := by omega
  rw [hK] at h
  rw [← h, List.foldl_append]

/-- Indices already processed are unchanged by the remainder of the loop. -/
theorem loop_split_lt (hne : ∀ l i j, j ≠ i → (f l i).getD j 0 = l.getD j 0)
    (k K s : Nat) (l : List Int) (j : Nat) (hk : k ≤ K) (hj : j < s + k) :
    ((List.range' s K).foldl f l).getD j 0 =
      ((List.range' s k).foldl f l).getD j 0 := by
  rw [loop_range'_split f k K s l hk]
  exact loop_getD_lt f hne (K - k) (s + k) _ j hj

/-- The final value at index `s + k` is whatever the k-th iteration wrote. -/
theorem loop_value (hne : ∀ l i j, j ≠ i → (f l i).getD j 0 = l.getD j 0)
    (k K s : Nat) (l : List Int) (hk : k < K) :
    ((List.range' s K).foldl f l).getD (s + k) 0 =
      (f ((List.range' s k).foldl f l) (s + k)).getD (s + k) 0 := by
  rw [loop_range'_split f (k + 1) K s l (by omega)]
  rw [loop_getD_lt f hne (K - (k + 1)) (s + (k + 1)) _ (s + k) (by omega)]
  have h := @List.range'_concat 1 s k
  rw [Nat.one_mul] at h
  rw [h, List.foldl_append, List.foldl_cons, List.foldl_nil]

end LoopLemmas

/-- Body of the `for i in range(4, len(data))` loop of `demark_setup`
(src/technical_analysis/demark.py lines 6-10): a close below the close 4 bars
back extends or restarts a positive streak, a close above it extends or
restarts a negative streak, otherwise nothing is written. -/
def setupStep (close : List Int) (setup : List Int) (i : Nat) : List Int :=
  if close.getD i 0 < close.getD (i - 4) 0 then
    setup.set i (if setup.getD (i - 1) 0 > 0 then setup.getD (i - 1) 0 + 1 else 1)
  else if close.getD (i - 4) 0 < close.getD i 0 then
    setup.set i (if setup.getD (i - 1) 0 < 0 then setup.getD (i - 1) 0 - 1 else -1)
  else setup

/-- `demark_setup` (src/technical_analysis/demark.py lines 4-11): `data['Setup'] = 0`
then the loop over `range(4, len(data))`. -/
def demark_setup (close : List Int) : List Int :=
  (List.range' 4 (close.length - 4)).foldl (setupStep close)
    (List.replicate close.length 0)

/-- Body of the `for i in range(2, len(data))` loop of `demark_countdown`
(src/technical_analysis/demark.py lines 15-19). -/
def countdownStep (close low high setup : List Int) (cd : List Int) (i : Nat) : List Int :=
  if setup.getD i 0 > 0 ∧ close.getD i 0 ≤ low.getD (i - 2) 0 then
    cd.set i (if cd.getD (i - 1) 0 > 0 then cd.getD (i - 1) 0 + 1 else 1)
  else if setup.getD i 0 < 0 ∧ high.getD (i - 2) 0 ≤ close.getD i 0 then
    cd.set i (if cd.getD (i - 1) 0 < 0 then cd.getD (i - 1) 0 - 1 else -1)
  else cd

/-- `demark_countdown` (src/technical_analysis/demark.py lines 13-20):
`data['Countdown'] = 0` then the loop over `range(2, len(data))`; the Setup
column is whatever `data['Setup']` holds when the function is called. -/
def demark_countdown (close low high setup : List Int) : List Int :=
  (List.range' 2 (close.length - 2)).foldl (countdownStep close low high setup)
    (List.replicate close.length 0)

theorem setupStep_ne (close : List Int) :
    ∀ (l : List Int) (i j : Nat), j ≠ i → (setupStep close l i).getD j 0 = l.getD j 0 := by
  intro l i j h
  unfold setupStep
  split
  · exact getD_set_ne _ _ _ _ h
  split
  · exact getD_set_ne _ _ _ _ h
  · rfl

theorem setupStep_length (close : List Int) :
    ∀ (l : List Int) (i : Nat), (setupStep close l i).length = l.length := by
  intro l i
  unfold setupStep
  split
  · exact List.length_set l i _
  split
  · exact List.length_set l i _
  · rfl

theorem countdownStep_ne (close low high setup : List Int) :
    ∀ (l : List Int) (i j : Nat), j ≠ i →
      (countdownStep close low high setup l i).getD j 0 = l.getD j 0 := by
  intro l i j h
  unfold countdownStep
  split
  · exact getD_set_ne _ _ _ _ h
  split
  · exact getD_set_ne _ _ _ _ h
  · rfl

theorem countdownStep_length (close low high setup : List Int) :
    ∀ (l : List Int) (i : Nat), (countdownStep close low high setup l i).length = l.length := by
  intro l i
  unfold countdownStep
  split
  · exact List.length_set l i _
  split
  · exact List.length_set l i _
  · rfl

theorem demark_setup_length (close : List Int) :
    (demark_setup close).length = close.length := by
  unfold demark_setup
  rw [loop_length _ (setupStep_length close), List.length_replicate]

theorem demark_setup_recurrence (close : List Int) (i : Nat)
    (h4 : 4 ≤ i) (hi : i < close.length) :
    (demark_setup close).getD i 0 =
      if close.getD i 0 < close.getD (i - 4) 0 then
        (if (demark_setup close).getD (i - 1) 0 > 0 then
          (demark_setup close).getD (i - 1) 0 + 1 else 1)
      else if close.getD (i - 4) 0 < close.getD i 0 then
        (if (demark_setup close).getD (i - 1) 0 < 0 then
          (demark_setup close).getD (i - 1) 0 - 1 else -1)
      else 0 := by
  obtain ⟨k, rfl⟩ : ∃ k, i = 4 + k := ⟨i - 4, by omega⟩
  have hkK : k < close.length - 4 := by omega
  have hlenS : ((List.range' 4 k).foldl (setupStep close)
      (List.replicate close.length 0)).length = close.length := by
    rw [loop_length _ (setupStep_length close), List.length_replicate]
  have hp : ((List.range' 4 k).foldl (setupStep close)
        (List.replicate close.length 0)).getD (4 + k - 1) 0
      = (demark_setup close).getD (4 + k - 1) 0 := by
    unfold demark_setup
    rw [loop_split_lt (setupStep close) (setupStep_ne close) k (close.length - 4) 4 _
      (4 + k - 1) (by omega) (by omega)]
  have hz : ((List.range' 4 k).foldl (setupStep close)
      (List.replicate close.length 0)).getD (4 + k) 0 = 0 := by
    rw [loop_getD_ge (setupStep close) (setupStep_ne close) k 4 _ (4 + k) (by omega)]
    exact getD_replicate_zero _ _
  conv_lhs => rw [demark_setup,
    loop_value (setupStep close) (setupStep_ne close) k (close.length - 4) 4 _ hkK]
  rw [setupStep]
  split
  · rw [getD_set_self _ _ _ (by omega), hp]
  split
  · rw [getD_set_self _ _ _ (by omega), hp]
  · exact hz

theorem demark_countdown_recurrence (close low high setup : List Int) (i : Nat)
    (h2 : 2 ≤ i) (hi : i < close.length) :
    (setup.getD i 0 > 0 → close.getD i 0 ≤ low.getD (i - 2) 0 →
      (demark_countdown close low high setup).getD i 0 =
        (if (demark_countdown close low high setup).getD (i - 1) 0 > 0 then
          (demark_countdown close low high setup).getD (i - 1) 0 + 1 else 1)) ∧
    (setup.getD i 0 < 0 → high.getD (i - 2) 0 ≤ close.getD i 0 →
      (demark_countdown close low high setup).getD i 0 =
        (if (demark_countdown close low high setup).getD (i - 1) 0 < 0 then
          (demark_countdown close low high setup).getD (i - 1) 0 - 1 else -1)) := by
  obtain ⟨k, rfl⟩ : ∃ k, i = 2 + k := ⟨i - 2, by omega⟩
  have hkK : k < close.length - 2 := by omega
  have hlenS : ((List.range' 2 k).foldl (countdownStep close low high setup)
      (List.replicate close.length 0)).length = close.length := by
    rw [loop_length _ (countdownStep_length close low high setup), List.length_replicate]
  have hp : ((List.range' 2 k).foldl (countdownStep close low high setup)
        (List.replicate close.length 0)).getD (2 + k - 1) 0
      = (demark_countdown close low high setup).getD (2 + k - 1) 0 := by
    unfold demark_countdown
    rw [loop_split_lt (countdownStep close low high setup)
      (countdownStep_ne close low high setup) k (close.length - 2) 2 _
      (2 + k - 1) (by omega) (by omega)]
  have hv : (demark_countdown close low high setup).getD (2 + k) 0 =
      (countdownStep close low high setup
        ((List.range' 2 k).foldl (countdownStep close low high setup)
          (List.replicate close.length 0)) (2 + k)).getD (2 + k) 0 := by
    rw [demark_countdown,
      loop_value (countdownStep close low high setup)
        (countdownStep_ne close low high setup) k (close.length - 2) 2 _ hkK]
  constructor
  · intro hs hc
    rw [hv, countdownStep, if_pos ⟨hs, hc⟩, getD_set_self _ _ _ (by omega), hp]
  · intro hs hc
    rw [hv, countdownStep, if_neg (by omega), if_pos ⟨hs, hc⟩,
      getD_set_self _ _ _ (by omega), hp]

end TechnicalAnalysis

open TechnicalAnalysis in
example :
    demark_setup [10, 9, 8, 7, 6, 5] = [0, 0, 0, 0, 1, 2] ∧
    demark_countdown [10, 9, 8, 7, 6, 5] [10, 10, 10, 10, 10, 10]
      [10, 10, 10, 10, 10, 10] [1, 1, 1, 1, 1, 1] = [0, 0, 1, 2, 3, 4] := by decide

/-- C8: for every OHLC table, the setup counter at each row from index 4 on
extends a positive streak by 1 when the close is below the close 4 bars back
(restarting at 1 if the previous value was not positive), extends a negative
streak by -1 when the close is above the close 4 bars back (restarting at -1 if
the previous value was not negative), and otherwise stays 0; and the countdown
counter at each row from index 2 on increments its positive streak when the
setup is positive and the close is at or below the low 2 bars back, and
decrements its negative streak when the setup is negative and the close is at
or above the high 2 bars back. -/
theorem demark_setup_countdown_streaks (close low high setup : List Int) :
    (∀ i, 4 ≤ i → i < close.length →
      (TechnicalAnalysis.demark_setup close).getD i 0 =
        if close.getD i 0 < close.getD (i - 4) 0 then
          (if (TechnicalAnalysis.demark_setup close).getD (i - 1) 0 > 0 then
            (TechnicalAnalysis.demark_setup close).getD (i - 1) 0 + 1 else 1)
        else if close.getD (i - 4) 0 < close.getD i 0 then
          (if (TechnicalAnalysis.demark_setup close).getD (i - 1) 0 < 0 then
            (TechnicalAnalysis.demark_setup close).getD (i - 1) 0 - 1 else -1)
        else 0) ∧
    (∀ i, 2 ≤ i → i < close.length →
      (setup.getD i 0 > 0 → close.getD i 0 ≤ low.getD (i - 2) 0 →
        (TechnicalAnalysis.demark_countdown close low high setup).getD i 0 =
          (if (TechnicalAnalysis.demark_countdown close low high setup).getD (i - 1) 0 > 0 then
            (TechnicalAnalysis.demark_countdown close low high setup).getD (i - 1) 0 + 1 else 1)) ∧
      (setup.getD i 0 < 0 → high.getD (i - 2) 0 ≤ close.getD i 0 →
        (TechnicalAnalysis.demark_countdown close low high setup).getD i 0 =
          (if (TechnicalAnalysis.demark_countdown close low high setup).getD (i - 1) 0 < 0 then
            (TechnicalAnalysis.demark_countdown close low high setup).getD (i - 1) 0 - 1 else -1))) :=
  ⟨fun i h4 hi => TechnicalAnalysis.demark_setup_recurrence close i h4 hi,
   fun i h2 hi => TechnicalAnalysis.demark_countdown_recurrence close low high setup i h2 hi⟩

/-- Witness for `demark_setup_countdown_streaks` at a concrete table. -/
theorem demark_setup_countdown_streaks_witness :
    ((TechnicalAnalysis.demark_setup [10, 9, 8, 7, 6, 5]).getD 4 0 =
      if ([10, 9, 8, 7, 6, 5] : List Int).getD 4 0 < ([10, 9, 8, 7, 6, 5] : List Int).getD 0 0 then
        (if (TechnicalAnalysis.demark_setup [10, 9, 8, 7, 6, 5]).getD 3 0 > 0 then
          (TechnicalAnalysis.demark_setup [10, 9, 8, 7, 6, 5]).getD 3 0 + 1 else 1)
      else if ([10, 9, 8, 7, 6, 5] : List Int).getD 0 0 < ([10, 9, 8, 7, 6, 5] : List Int).getD 4 0 then
        (if (TechnicalAnalysis.demark_setup [10, 9, 8, 7, 6, 5]).getD 3 0 < 0 then
          (TechnicalAnalysis.demark_setup [10, 9, 8, 7, 6, 5]).getD 3 0 - 1 else -1)
      else 0) ∧
    ((TechnicalAnalysis.demark_countdown [10, 9, 8, 7, 6, 5] [10, 10, 10, 10, 10, 10]
        [10, 10, 10, 10, 10, 10] [1, 1, 1, 1, 1, 1]).getD 2 0 =
      (if (TechnicalAnalysis.demark_countdown [10, 9, 8, 7, 6, 5] [10, 10, 10, 10, 10, 10]
          [10, 10, 10, 10, 10, 10] [1, 1, 1, 1, 1, 1]).getD 1 0 > 0 then
        (TechnicalAnalysis.demark_countdown [10, 9, 8, 7, 6, 5] [10, 10, 10, 10, 10, 10]
          [10, 10, 10, 10, 10, 10] [1, 1, 1, 1, 1, 1]).getD 1 0 + 1 else 1)) :=
  ⟨(demark_setup_countdown_streaks [10, 9, 8, 7, 6, 5] [10, 10, 10, 10, 10, 10]
      [10, 10, 10, 10, 10, 10] [1, 1, 1, 1, 1, 1]).1 4 (by omega) (by decide),
   ((demark_setup_countdown_streaks [10, 9, 8, 7, 6, 5] [10, 10, 10, 10, 10, 10]
      [10, 10, 10, 10, 10, 10] [1, 1, 1, 1, 1, 1]).2 2 (by omega) (by decide)).1
      (by decide) (by decide)⟩

namespace ChannelClient

/-- Body of the inner `for item in response.get('items', [])` loop of
`BaseChannelClient.update_video_ids` (src/youtube_analyzer/libs/channel_client.py
lines 91-95): state is the pair `(self.video_ids, new_video_ids)`; an id not
already in `self.video_ids` is appended to both lists. -/
def addItem (st : List String × List String) (v : String) : List String × List String :=
  if v ∈ st.1 then st else (st.1 ++ [v], st.2 ++ [v])

/-- One page of the paged search: process all of its item ids in order. -/
def processPage (st : List String × List String) (items : List String) :
    List String × List String :=
  items.foldl addItem st

/-- `update_video_ids` (src/youtube_analyzer/libs/channel_client.py lines 40-106),
abstracted over the sequence of result pages the YouTube search returns for the
chosen `publishedAfter`/`publishedBefore`/`q` filters (at most 50 items each;
the pagination loop, and its `except ... break`, only determine which pages are
processed).  Returns the updated `self.video_ids` and the returned
`new_video_ids`. -/
def update_video_ids (videoIds : List String) (pages : List (List String)) :
    List String × List String :=
  pages.foldl processPage (videoIds, [])

theorem addItem_invariant (ids : List String) (st : List String × List String)
    (v : String) (h : st.1 = ids ++ st.2 ∧ st.2.Nodup ∧ ∀ x ∈ st.2, x ∉ ids) :
    (addItem st v).1 = ids ++ (addItem st v).2 ∧ (addItem st v).2.Nodup ∧
      ∀ x ∈ (addItem st v).2, x ∉ ids := by
  obtain ⟨h1, h2, h3⟩ := h
  unfold addItem
  split
  · exact ⟨h1, h2, h3⟩
  · rename_i hv
    rw [h1] at hv
    simp only [List.mem_append] at hv
    push_neg at hv
    refine ⟨by rw [h1, List.append_assoc], ?_, ?_⟩
    · simp [List.nodup_append, h2, hv.2]
    · intro x hx
      rcases List.mem_append.mp hx with hx | hx
      · exact h3 x hx
      · simp only [List.mem_singleton] at hx
        subst hx
        exact hv.1

theorem processPage_invariant (ids : List String) (items : List String) :
    ∀ (st : List String × List String),
      st.1 = ids ++ st.2 ∧ st.2.Nodup ∧ (∀ x ∈ st.2, x ∉ ids) →
      (processPage st items).1 = ids ++ (processPage st items).2 ∧
        (processPage st items).2.Nodup ∧ ∀ x ∈ (processPage st items).2, x ∉ ids := by
  induction items with
  | nil => intro st h; exact h
  | cons v items ih =>
    intro st h
    exact ih (addItem st v) (addItem_invariant ids st v h)

/-- C4: after any `update_video_ids` call, the stored video id list is the old
list with the newly returned ids appended: nothing is removed or reordered, an
id already present is never appended again, the returned list is duplicate-free
and disjoint from the previously stored ids. -/
theorem update_video_ids_appends (videoIds : List String) (pages : List (List String)) :
    (ChannelClient.update_video_ids videoIds pages).1 =
        videoIds ++ (ChannelClient.update_video_ids videoIds pages).2 ∧
      (ChannelClient.update_video_ids videoIds pages).2.Nodup ∧
      ∀ x, x ∈ (ChannelClient.update_video_ids videoIds pages).2 → x ∉ videoIds := by
  have main : ∀ (ps : List (List String)) (st : List String × List String),
      st.1 = videoIds ++ st.2 ∧ st.2.Nodup ∧ (∀ x ∈ st.2, x ∉ videoIds) →
      (ps.foldl processPage st).1 = videoIds ++ (ps.foldl processPage st).2 ∧
        (ps.foldl processPage st).2.Nodup ∧
        ∀ x ∈ (ps.foldl processPage st).2, x ∉ videoIds := by
    intro ps
    induction ps with
    | nil => intro st h; exact h
    | cons p ps ih =>
      intro st h
      exact ih (processPage st p) (processPage_invariant videoIds p st h)
  exact main pages (videoIds, []) (by simp)

/-- Witness for `update_video_ids_appends` at a concrete state and page list. -/
theorem update_video_ids_appends_witness :
    (ChannelClient.update_video_ids ["x"] [["a", "x", "a"], ["b", "a"]]).1 =
        ["x"] ++ (ChannelClient.update_video_ids ["x"] [["a", "x", "a"], ["b", "a"]]).2 ∧
      "a" ∉ ["x"] :=
  ⟨(update_video_ids_appends ["x"] [["a", "x", "a"], ["b", "a"]]).1,
   (update_video_ids_appends ["x"] [["a", "x", "a"], ["b", "a"]]).2.2 "a" (by decide)⟩

end ChannelClient

open ChannelClient in
example :
    update_video_ids ["x"] [["a", "x", "a"], ["b", "a"]] = (["x", "a", "b"], ["a", "b"]) := by
  decide

namespace VideoLib

/-- ASCII model of Python `str.islower` on one character. -/
def pyIsLowerCh (c : Char) : Bool := 97 ≤ c.toNat && c.toNat ≤ 122

/-- ASCII model of Python `str.isupper` on one character. -/
def pyIsUpperCh (c : Char) : Bool := 65 ≤ c.toNat && c.toNat ≤ 90

/-- ASCII model of Python `str.isalpha` on one character (the cased characters
of the ASCII range). -/
def pyIsAlphaCh (c : Char) : Bool := pyIsUpperCh c || pyIsLowerCh c

/-- Python `str.isupper`: at least one cased character, and every cased
character is upper-case (ASCII model). -/
def pyIsUpper (s : String) : Bool :=
  s.toList.any pyIsAlphaCh && s.toList.all (fun c => !pyIsAlphaCh c || pyIsUpperCh c)

/-- `is_all_caps` from `Video._transform_transcript_for_readability`
(src/youtube_analyzer/libs/video.py lines 156-157):
`text.isupper() and any(c.isalpha() for c in text)`. -/
def is_all_caps (text : String) : Bool :=
  pyIsUpper text && text.toList.any pyIsAlphaCh

/-- Python `str.capitalize`: first character upper-cased, the rest lower-cased
(ASCII model), on a character list. -/
def pyCapitalizeL : List Char → List Char
  | [] => []
  | c :: t => c.toUpper :: t.map Char.toLower

/-- Python `str.split('. ')`: split at each non-overlapping occurrence of the
two-character separator, scanning left to right. -/
def splitDotSpace : List Char → List (List Char)
  | '.' :: ' ' :: rest => [] :: splitDotSpace rest
  | c :: rest =>
    match splitDotSpace rest with
    | [] => [[c]]
    | h :: t => (c :: h) :: t
  | [] => [[]]

/-- Python `'. '.join(...)`. -/
def joinDotSpace : List (List Char) → List Char
  | [] => []
  | [x] => x
  | x :: xs => x ++ '.' :: ' ' :: joinDotSpace xs

/-- `Video._transform_transcript_for_readability`
(src/youtube_analyzer/libs/video.py lines 151-164): empty or non-English text
is returned as is; an all-caps English text is re-cased sentence by sentence
(`transcript.capitalize().split('. ')`, each sentence capitalised, re-joined
with `'. '`); anything else is returned as is. -/
def transform_transcript_for_readability (transcript : String) (language : String) : String :=
  if transcript = "" ∨ language ≠ "en" then transcript
  else if is_all_caps transcript then
    String.mk (joinDotSpace
      ((splitDotSpace (pyCapitalizeL transcript.toList)).map pyCapitalizeL))
  else transcript

theorem pyIsLowerCh_not_upper (c : Char) (h : pyIsLowerCh c = true) :
    pyIsAlphaCh c = true ∧ pyIsUpperCh c = false := by
  simp only [pyIsLowerCh, pyIsAlphaCh, pyIsUpperCh, Bool.and_eq_true, Bool.or_eq_true,
    decide_eq_true_eq, Bool.and_eq_false_iff, decide_eq_false_iff_not, not_le] at *
  omega

/-- C10: the transcript transform returns its input unchanged unless the
language code is exactly `en` and the text is entirely upper-case with at least
one alphabetic character; in particular non-English transcripts, empty strings,
and English text containing a lower-case letter are never modified. -/
theorem transform_transcript_unchanged :
    (∀ t lang, ¬(lang = "en" ∧ VideoLib.is_all_caps t = true) →
      VideoLib.transform_transcript_for_readability t lang = t) ∧
    (∀ t lang, lang ≠ "en" → VideoLib.transform_transcript_for_readability t lang = t) ∧
    (∀ lang, VideoLib.transform_transcript_for_readability "" lang = "") ∧
    (∀ t c, c ∈ t.toList → VideoLib.pyIsLowerCh c = true →
      VideoLib.transform_transcript_for_readability t "en" = t) := by
  have main : ∀ t lang, ¬(lang = "en" ∧ is_all_caps t = true) →
      transform_transcript_for_readability t lang = t := by
    intro t lang h
    unfold transform_transcript_for_readability
    split
    · rfl
    · rename_i h1
      push_neg at h1
      split
      · rename_i h2
        exact absurd ⟨h1.2, h2⟩ h
      · rfl
  refine ⟨main, fun t lang hl => main t lang (fun hc => hl hc.1), fun lang => ?_, ?_⟩
  · by_cases hl : lang = "en"
    · exact main "" lang (by simp [hl, is_all_caps, pyIsUpper])
    · exact main "" lang (fun hc => hl hc.1)
  · intro t c hc hlow
    refine main t "en" (fun hcap => ?_)
    have h2 := hcap.2
    unfold is_all_caps pyIsUpper at h2
    simp only [Bool.and_eq_true, List.all_eq_true, Bool.or_eq_true, Bool.not_eq_true'] at h2
    rcases (h2.1.2 c hc) with hna | hup
    · exact absurd (pyIsLowerCh_not_upper c hlow).1 (by simp [hna])
    · exact absurd (pyIsLowerCh_not_upper c hlow).2 (by simp [hup])

/-- Witness for `transform_transcript_unchanged` at concrete inputs. -/
theorem transform_transcript_unchanged_witness :
    VideoLib.transform_transcript_for_readability "Hello there" "en" = "Hello there" ∧
    VideoLib.transform_transcript_for_readability "HOLA" "es" = "HOLA" :=
  ⟨transform_transcript_unchanged.1 "Hello there" "en" (by decide),
   (transform_transcript_unchanged.2.1) "HOLA" "es" (by decide)⟩

end VideoLib

open VideoLib in
example :
    transform_transcript_for_readability "HELLO WORLD. HOW ARE YOU" "en" =
      "Hello world. How are you" := by decide

namespace YouTubeApiClient

/-- The character class `[0-9A-Za-z_-]` of the YouTube id regex
(src/youtube_analyzer/libs/youtube_api_client.py line 251). -/
def isYTChar (c : Char) : Bool :=
  (48 ≤ c.toNat && c.toNat ≤ 57) || (65 ≤ c.toNat && c.toNat ≤ 90) ||
    (97 ≤ c.toNat && c.toNat ≤ 122) || c == '_' || c == '-'

/-- `[0-9A-Za-z_-]{11}` matched greedily at the current position: the next 11
characters when they are all in the class. -/
def take11YT (cs : List Char) : Option (List Char) :=
  let g := cs.take 11
  if g.length == 11 && g.all isYTChar then some g else none

/-- `re.search(r'(?:v=|/)([0-9A-Za-z_-]{11}).*', s)`: leftmost position where
`v=` (tried first) or `/` is followed by 11 class characters; the group is
those 11 characters (the trailing `.*` constrains nothing). -/
def searchPat1 : List Char → Option (List Char)
  | [] => none
  | c :: rest =>
    if c == 'v' then
      match rest with
      | '=' :: rest2 =>
        match take11YT rest2 with
        | some g => some g
        | none => searchPat1 rest
      | _ => searchPat1 rest
    else if c == '/' then
      match take11YT rest with
      | some g => some g
      | none => searchPat1 rest
    else searchPat1 rest

/-- `re.search(r'youtu\.be/([0-9A-Za-z_-]{11})', s)`: leftmost occurrence of
the literal `youtu.be/` followed by 11 class characters. -/
def searchPat2 : List Char → Option (List Char)
  | [] => none
  | c :: rest =>
    match (if RazorbackUtils.startsWithLit ("youtu.be/".toList) (c :: rest) then
        take11YT (rest.drop 8) else none) with
    | some g => some g
    | none => searchPat2 rest

/-- The double check `re.match(youtube_id_pattern, video_id)` applied to an
extracted group before returning it
(src/youtube_analyzer/libs/youtube_api_client.py lines 266-269). -/
def checkAndReturn (g : List Char) : Option String :=
  if g.length == 11 && g.all isYTChar then some (String.mk g) else none

/-- `YouTubeAPIClient.parse_video_id`
(src/youtube_analyzer/libs/youtube_api_client.py lines 229-274): `None`/empty
input raises `ValueError`; an 11-character class string is returned as is;
otherwise the two URL patterns are searched in order and a validated group is
returned; else `ValueError`. -/
def parse_video_id : Option String → Except String String
  | none => Except.error "No video ID or URL provided"
  | some s =>
    if s = "" then Except.error "No video ID or URL provided"
    else if s.length == 11 && s.toList.all isYTChar then Except.ok s
    else
      match (searchPat1 s.toList).bind checkAndReturn with
      | some v => Except.ok v
      | none =>
        match (searchPat2 s.toList).bind checkAndReturn with
        | some v => Except.ok v
        | none =>
          Except.error "Could not extract valid YouTube video ID"

theorem checkAndReturn_ok (g : List Char) (v : String) (h : checkAndReturn g = some v) :
    v.length = 11 ∧ v.toList.all isYTChar = true := by
  unfold checkAndReturn at h
  split at h
  · rename_i hcond
    cases h
    simp only [Bool.and_eq_true, beq_iff_eq] at hcond
    exact ⟨hcond.1, hcond.2⟩
  · cases h

/-- C9: any 11-character string over `[0-9A-Za-z_-]` is returned unchanged;
`None` and the empty string raise `ValueError`; and every id returned without
raising — including ids extracted from URLs — is an 11-character string over
that class. -/
theorem parse_video_id_spec :
    (∀ s : String, s.length = 11 → s.toList.all YouTubeApiClient.isYTChar = true →
      YouTubeApiClient.parse_video_id (some s) = Except.ok s) ∧
    (YouTubeApiClient.parse_video_id none = Except.error "No video ID or URL provided" ∧
      YouTubeApiClient.parse_video_id (some "") =
        Except.error "No video ID or URL provided") ∧
    (∀ s r, YouTubeApiClient.parse_video_id (some s) = Except.ok r →
      r.length = 11 ∧ r.toList.all YouTubeApiClient.isYTChar = true) := by
  refine ⟨?_, ⟨rfl, rfl⟩, ?_⟩
  · intro s h11 hall
    have hne : s ≠ "" := by
      intro he
      rw [he] at h11
      simp at h11
    simp only [parse_video_id]
    rw [if_neg hne, if_pos (by rw [h11, hall]; rfl)]
  · intro s r h
    simp only [parse_video_id] at h
    by_cases hs : s = ""
    · rw [if_pos hs] at h
      cases h
    rw [if_neg hs] at h
    by_cases hc : (s.length == 11 && s.toList.all isYTChar) = true
    · rw [if_pos hc] at h
      cases h
      simp only [Bool.and_eq_true, beq_iff_eq] at hc
      exact ⟨hc.1, hc.2⟩
    rw [if_neg hc] at h
    cases hb1 : (searchPat1 s.toList).bind checkAndReturn with
    | some v =>
      rw [hb1] at h
      cases h
      obtain ⟨g, -, hchk⟩ := Option.bind_eq_some.mp hb1
      exact checkAndReturn_ok g _ hchk
    | none =>
      rw [hb1] at h
      cases hb2 : (searchPat2 s.toList).bind checkAndReturn with
      | some v =>
        rw [hb2] at h
        cases h
        obtain ⟨g, -, hchk⟩ := Option.bind_eq_some.mp hb2
        exact checkAndReturn_ok g _ hchk
      | none =>
        rw [hb2] at h
        cases h

/-- Witness for `parse_video_id_spec` at concrete inputs. -/
theorem parse_video_id_spec_witness :
    YouTubeApiClient.parse_video_id (some "dQw4w9WgXcQ") = Except.ok "dQw4w9WgXcQ" ∧
    ("dQw4w9WgXcQ" : String).length = 11 ∧
      ("dQw4w9WgXcQ" : String).toList.all YouTubeApiClient.isYTChar = true :=
  ⟨parse_video_id_spec.1 "dQw4w9WgXcQ" (by decide) (by decide),
   parse_video_id_spec.2.2 "https://www.youtube.com/watch?v=dQw4w9WgXcQ" "dQw4w9WgXcQ"
     rfl⟩

end YouTubeApiClient

open YouTubeApiClient in
example :
    parse_video_id (some "https://youtu.be/abc123XYZ_-") = Except.ok "abc123XYZ_-" ∧
    parse_video_id (some "https://www.youtube.com/embed/abc123XYZ_-") =
      Except.ok "abc123XYZ_-" ∧
    parse_video_id (some "not a video") =
      Except.error "Could not extract valid YouTube video ID" := ⟨rfl, rfl, rfl⟩

/-- C6 (amended): `iso_duration_to_minutes` maps `PT1H30M` to 90, `PT59S` to 1
(seconds round up), `PT0S` to 0, and maps to 0 every string in which no digit
run immediately precedes a `D`, `H`, `M` or `S`; a string that does contain
such a component contributes it to the sum even when the string is not a valid
ISO-8601 duration. -/
theorem iso_duration_minutes_spec :
    RazorbackUtils.iso_duration_to_minutes "PT1H30M" = 90 ∧
    RazorbackUtils.iso_duration_to_minutes "PT59S" = 1 ∧
    RazorbackUtils.iso_duration_to_minutes "PT0S" = 0 ∧
    ∀ s : String,
      RazorbackUtils.findNumBefore 'D' s.toList = none →
      RazorbackUtils.findNumBefore 'H' s.toList = none →
      RazorbackUtils.findNumBefore 'M' s.toList = none →
      RazorbackUtils.findNumBefore 'S' s.toList = none →
      RazorbackUtils.iso_duration_to_minutes s = 0 := by
  refine ⟨by decide, by decide, by decide, ?_⟩
  intro s hD hH hM hS
  have hD' : RazorbackUtils.findNumBefore 'D' s.data = none := hD
  have hH' : RazorbackUtils.findNumBefore 'H' s.data = none := hH
  have hM' : RazorbackUtils.findNumBefore 'M' s.data = none := hM
  have hS' : RazorbackUtils.findNumBefore 'S' s.data = none := hS
  simp [RazorbackUtils.iso_duration_to_minutes, String.toList, hD', hH', hM', hS']

/-- Witness for `iso_duration_minutes_spec` on a component-free string. -/
theorem iso_duration_minutes_spec_witness :
    RazorbackUtils.iso_duration_to_minutes "youtube" = 0 :=
  iso_duration_minutes_spec.2.2.2 "youtube" (by decide) (by decide) (by decide) (by decide)

/-- Counterexample to C6 as stated: `"1M"` is not a valid ISO-8601 duration
(no leading `P`), yet `iso_duration_to_minutes` returns 1 for it, not 0. -/
theorem iso_duration_invalid_string_cex :
    RazorbackUtils.isValidIsoDuration "1M" = false ∧
      RazorbackUtils.iso_duration_to_minutes "1M" ≠ 0 := by decide

namespace YouTubeApiClient

/-- One entry of `HttpError.error_details`: the fields `_handle_api_error`
reads with `.get`. -/
structure ErrorDetail where
  reason : Option String
  domain : Option String
deriving DecidableEq

/-- The parts of `googleapiclient.errors.HttpError` that `_handle_api_error`
inspects: `status_code`, `error_details`, and `str(error)` (as `msg`). -/
structure HttpError where
  status_code : Nat
  error_details : List ErrorDetail
  msg : String
deriving DecidableEq

/-- `error_details[0] if error.error_details else {}` followed by
`.get('reason', 'unknown')` (src/youtube_analyzer/libs/youtube_api_client.py
lines 102-103). -/
def detailReason (e : HttpError) : String :=
  match e.error_details with
  | [] => "unknown"
  | d :: _ => d.reason.getD "unknown"

/-- Python `needle in hay` substring test on character lists. -/
def hasInfixL (needle : List Char) : List Char → Bool
  | [] => RazorbackUtils.startsWithLit needle []
  | c :: t => RazorbackUtils.startsWithLit needle (c :: t) || hasInfixL needle t

/-- ASCII model of Python `str.lower` on one character. -/
def asciiLowerCh (c : Char) : Char :=
  if VideoLib.pyIsUpperCh c then Char.ofNat (c.toNat + 32) else c

/-- ASCII model of Python `str.lower`. -/
def pyLower (s : String) : String := String.mk (s.toList.map asciiLowerCh)

/-- Python `needle in hay`. -/
def strContainsSub (hay needle : String) : Bool := hasInfixL needle.toList hay.toList

/-- The exceptions `_handle_api_error` can raise: the dedicated error classes,
`ValueError` with its message, or re-raising the original `HttpError`. -/
inductive ApiErrorOutcome
  | quotaExceeded
  | rateLimit
  | videoNotFound
  | privateVideo
  | valueError (m : String)
  | reraise (e : HttpError)
deriving DecidableEq

/-- `YouTubeAPIClient._handle_api_error`
(src/youtube_analyzer/libs/youtube_api_client.py lines 100-143): classify by
status code and detail reason; 400 responses whose text does not mention
"private" raise `ValueError("Invalid request: ...")`; everything unmatched
re-raises the original error. -/
def handle_api_error (e : HttpError) : ApiErrorOutcome :=
  if e.status_code == 403 then
    (if detailReason e == "quotaExceeded" then ApiErrorOutcome.quotaExceeded
     else if detailReason e == "rateLimitExceeded" then ApiErrorOutcome.rateLimit
     else ApiErrorOutcome.reraise e)
  else if e.status_code == 404 then ApiErrorOutcome.videoNotFound
  else if e.status_code == 401 then
    ApiErrorOutcome.valueError "Invalid API key or authentication required"
  else if e.status_code == 400 then
    (if strContainsSub (pyLower e.msg) "private" then ApiErrorOutcome.privateVideo
     else ApiErrorOutcome.valueError ("Invalid request: " ++ e.msg))
  else ApiErrorOutcome.reraise e

end YouTubeApiClient

/-- C3 (amended): 403/quotaExceeded raises the quota error, 403/rateLimitExceeded
the rate-limit error, 404 the not-found error, 401 `ValueError`, 400 mentioning
"private" the private-video error and any other 400 `ValueError` ("Invalid
request"); each immediately and without retry; any other error — including a
403 with an unrecognised reason — is re-raised unchanged. -/
theorem handle_api_error_classification (e : YouTubeApiClient.HttpError) :
    (e.status_code = 403 → YouTubeApiClient.detailReason e = "quotaExceeded" →
      YouTubeApiClient.handle_api_error e = YouTubeApiClient.ApiErrorOutcome.quotaExceeded) ∧
    (e.status_code = 403 → YouTubeApiClient.detailReason e = "rateLimitExceeded" →
      YouTubeApiClient.handle_api_error e = YouTubeApiClient.ApiErrorOutcome.rateLimit) ∧
    (e.status_code = 403 → YouTubeApiClient.detailReason e ≠ "quotaExceeded" →
      YouTubeApiClient.detailReason e ≠ "rateLimitExceeded" →
      YouTubeApiClient.handle_api_error e = YouTubeApiClient.ApiErrorOutcome.reraise e) ∧
    (e.status_code = 404 →
      YouTubeApiClient.handle_api_error e = YouTubeApiClient.ApiErrorOutcome.videoNotFound) ∧
    (e.status_code = 401 →
      YouTubeApiClient.handle_api_error e =
        YouTubeApiClient.ApiErrorOutcome.valueError
          "Invalid API key or authentication required") ∧
    (e.status_code = 400 →
      YouTubeApiClient.strContainsSub (YouTubeApiClient.pyLower e.msg) "private" = true →
      YouTubeApiClient.handle_api_error e = YouTubeApiClient.ApiErrorOutcome.privateVideo) ∧
    (e.status_code = 400 →
      YouTubeApiClient.strContainsSub (YouTubeApiClient.pyLower e.msg) "private" = false →
      YouTubeApiClient.handle_api_error e =
        YouTubeApiClient.ApiErrorOutcome.valueError ("Invalid request: " ++ e.msg)) ∧
    (e.status_code ≠ 403 → e.status_code ≠ 404 → e.status_code ≠ 401 →
      e.status_code ≠ 400 →
      YouTubeApiClient.handle_api_error e = YouTubeApiClient.ApiErrorOutcome.reraise e) := by
  unfold YouTubeApiClient.handle_api_error
  refine ⟨?_, ?_, ?_, ?_, ?_, ?_, ?_, ?_⟩ <;> intro h1
  · intro h2
    simp [h1, h2]
  · intro h2
    have hq : YouTubeApiClient.detailReason e ≠ "quotaExceeded" := by
      rw [h2]
      decide
    simp [h1, h2, hq]
  · intro h2 h3
    simp [h1, h2, h3]
  · simp [h1]
  · simp [h1]
  · intro h2
    simp [h1, h2]
  · intro h2
    simp [h1, h2]
  · intro h2 h3 h4
    simp [h1, h2, h3, h4]

/-- Witness for `handle_api_error_classification` on a concrete quota error. -/
theorem handle_api_error_classification_witness :
    YouTubeApiClient.handle_api_error
        ⟨403, [⟨some "quotaExceeded", some "usageLimits"⟩], "Quota exceeded"⟩ =
      YouTubeApiClient.ApiErrorOutcome.quotaExceeded :=
  (handle_api_error_classification
    ⟨403, [⟨some "quotaExceeded", some "usageLimits"⟩], "Quota exceeded"⟩).1
    (by decide) (by decide)

/-- Counterexample to C3 as stated: a 400 response that does not mention
"private" is unmatched by the claim's listed cases, yet `_handle_api_error`
raises a fresh `ValueError` instead of re-raising the original error. -/
theorem handle_api_error_400_cex :
    YouTubeApiClient.handle_api_error ⟨400, [], "Bad Request"⟩ =
        YouTubeApiClient.ApiErrorOutcome.valueError "Invalid request: Bad Request" ∧
      YouTubeApiClient.handle_api_error ⟨400, [], "Bad Request"⟩ ≠
        YouTubeApiClient.ApiErrorOutcome.reraise ⟨400, [], "Bad Request"⟩ := by decide

namespace YouTubeApiClient

/-- Outcome of the test request `_try_key` sends for one key
(src/youtube_analyzer/libs/youtube_api_client.py lines 83-98): success, a 403
with "quota" in its text (returns False), or any other `HttpError` (re-raised). -/
inductive KeyTest
  | success
  | quotaFail
  | otherError (e : HttpError)
deriving DecidableEq

/-- The environment `YouTubeAPIClient.__init__` reads: the class-level
`_working_key`, the `api_key` argument, the `YOUTUBE_API_KEY`(+`_2`/`_3`)
variables, and the outcome of the test request for each key. -/
structure InitEnv where
  workingKey : Option String
  apiKeyArg : Option String
  envKey : Option String
  envKey2 : Option String
  envKey3 : Option String
  test : String → KeyTest

/-- Python truthiness of an optional string (`None` and `""` are falsy). -/
def truthy : Option String → Bool
  | none => false
  | some s => s != ""

/-- Python `a or b` on optional strings. -/
def pyOrStr (a b : Option String) : Option String := if truthy a then a else b

/-- Result of the `_try_key` cascade, with the keys actually sent a test
request, in order. -/
inductive TryOutcome
  | success (k : String) (tested : List String)
  | exhausted (tested : List String)
  | raised (e : HttpError) (tested : List String)
deriving DecidableEq

/-- The `_try_key` cascade of `__init__`
(src/youtube_analyzer/libs/youtube_api_client.py lines 50-71, 73-98): keys are
attempted in order; a key already in `_tried_keys` is skipped without a new
test request; a quota failure moves on to the next key; any other test error
propagates immediately. -/
def tryKeys (test : String → KeyTest) : List String → List String → TryOutcome
  | _, [] => TryOutcome.exhausted []
  | tried, k :: rest =>
    if k ∈ tried then tryKeys test tried rest
    else
      match test k with
      | KeyTest.success => TryOutcome.success k [k]
      | KeyTest.otherError e => TryOutcome.raised e [k]
      | KeyTest.quotaFail =>
        match tryKeys test (k :: tried) rest with
        | TryOutcome.success kk ts => TryOutcome.success kk (k :: ts)
        | TryOutcome.exhausted ts => TryOutcome.exhausted (k :: ts)
        | TryOutcome.raised e ts => TryOutcome.raised e (k :: ts)

/-- What construction raises when it fails. -/
inductive InitError
  | valueError
  | quotaExceeded
  | httpError (e : HttpError)
deriving DecidableEq

inductive InitResult
  | ok (currentKey : String)
  | error (e : InitError)
deriving DecidableEq

/-- Observable outcome of `__init__`: the result, the class-level
`_working_key` afterwards, and the keys sent a test request, in order. -/
structure InitOutcome where
  result : InitResult
  workingKeyAfter : Option String
  tested : List String
deriving DecidableEq

/-- The configured keys in the order `__init__` attempts them: primary
(`api_key or YOUTUBE_API_KEY`), then the secondary and tertiary environment
keys when they are truthy. -/
def candidateKeys (env : InitEnv) : List String :=
  [(pyOrStr env.apiKeyArg env.envKey).getD ""] ++
    (if truthy env.envKey2 then [env.envKey2.getD ""] else []) ++
    (if truthy env.envKey3 then [env.envKey3.getD ""] else [])

/-- `YouTubeAPIClient.__init__`
(src/youtube_analyzer/libs/youtube_api_client.py lines 29-71): a truthy
class-level working key is reused directly with no test request; a falsy
primary key raises `ValueError`; otherwise the keys are attempted in order and
the first success is pinned as the class-level working key; if every attempted
key quota-fails the constructor raises `YouTubeQuotaExceededError`. -/
def clientInit (env : InitEnv) : InitOutcome :=
  if truthy env.workingKey then
    ⟨InitResult.ok (env.workingKey.getD ""), env.workingKey, []⟩
  else if !truthy (pyOrStr env.apiKeyArg env.envKey) then
    ⟨InitResult.error InitError.valueError, env.workingKey, []⟩
  else
    match tryKeys env.test [] (candidateKeys env) with
    | TryOutcome.success k ts => ⟨InitResult.ok k, some k, ts⟩
    | TryOutcome.exhausted ts =>
      ⟨InitResult.error InitError.quotaExceeded, env.workingKey, ts⟩
    | TryOutcome.raised e ts =>
      ⟨InitResult.error (InitError.httpError e), env.workingKey, ts⟩

/-- Spec-side: keep the first occurrence of each key, dropping those already in
`tried`. -/
def dedupAux (tried : List String) : List String → List String
  | [] => []
  | k :: rest =>
    if k ∈ tried then dedupAux tried rest else k :: dedupAux (k :: tried) rest

/-- Spec-side: the distinct keys in first-occurrence order. -/
def dedupFirst (l : List String) : List String := dedupAux [] l

/-- Spec-side reference cascade on a duplicate-free key list. -/
def specTry (test : String → KeyTest) : List String → TryOutcome
  | [] => TryOutcome.exhausted []
  | k :: rest =>
    match test k with
    | KeyTest.success => TryOutcome.success k [k]
    | KeyTest.otherError e => TryOutcome.raised e [k]
    | KeyTest.quotaFail =>
      match specTry test rest with
      | TryOutcome.success kk ts => TryOutcome.success kk (k :: ts)
      | TryOutcome.exhausted ts => TryOutcome.exhausted (k :: ts)
      | TryOutcome.raised e ts => TryOutcome.raised e (k :: ts)

theorem tryKeys_eq_specTry (test : String → KeyTest) :
    ∀ (cs tried : List String), tryKeys test tried cs = specTry test (dedupAux tried cs) := by
  intro cs
  induction cs with
  | nil => intro tried; rfl
  | cons k rest ih =>
    intro tried
    by_cases hk : k ∈ tried
    · rw [tryKeys, if_pos hk, dedupAux, if_pos hk, ih tried]
    · rw [tryKeys, if_neg hk, dedupAux, if_neg hk]
      cases htest : test k with
      | success => rw [specTry, htest]
      | otherError e => rw [specTry, htest]
      | quotaFail => rw [specTry, htest, ih (k :: tried)]

theorem specTry_characterisation (test : String → KeyTest) :
    ∀ d : List String,
      (d.dropWhile (fun k => test k == KeyTest.quotaFail) = [] →
        specTry test d = TryOutcome.exhausted d) ∧
      (∀ k rest, d.dropWhile (fun k => test k == KeyTest.quotaFail) = k :: rest →
        (test k = KeyTest.success →
          specTry test d =
            TryOutcome.success k
              (d.takeWhile (fun k => test k == KeyTest.quotaFail) ++ [k])) ∧
        (∀ e, test k = KeyTest.otherError e →
          specTry test d =
            TryOutcome.raised e
              (d.takeWhile (fun k => test k == KeyTest.quotaFail) ++ [k]))) := by
  intro d
  induction d with
  | nil => exact ⟨fun _ => rfl, fun k rest h => by cases h⟩
  | cons k0 rest0 ih =>
    by_cases hq : test k0 = KeyTest.quotaFail
    · have hqb : (fun k => test k == KeyTest.quotaFail) k0 = true := by
        simp [hq]
      constructor
      · intro hdrop
        rw [List.dropWhile_cons, if_pos hqb] at hdrop
        rw [specTry, hq, ih.1 hdrop]
      · intro k rest hdrop
        rw [List.dropWhile_cons, if_pos hqb] at hdrop
        have hsub := ih.2 k rest hdrop
        constructor
        · intro hk
          rw [specTry, hq, hsub.1 hk, List.takeWhile_cons, if_pos hqb, List.cons_append]
        · intro e hk
          rw [specTry, hq, hsub.2 e hk, List.takeWhile_cons, if_pos hqb, List.cons_append]
    · have hqb : (fun k => test k == KeyTest.quotaFail) k0 = false := by
        simp [hq]
      constructor
      · intro hdrop
        rw [List.dropWhile_cons, if_neg (by simp [hqb])] at hdrop
        cases hdrop
      · intro k rest hdrop
        rw [List.dropWhile_cons, if_neg (by simp [hqb])] at hdrop
        cases hdrop
        constructor
        · intro hk
          rw [specTry, hk, List.takeWhile_cons, if_neg (by simp [hqb]),
            List.nil_append]
        · intro e hk
          rw [specTry, hk, List.takeWhile_cons, if_neg (by simp [hqb]),
            List.nil_append]

end YouTubeApiClient

/-- C1 (amended): construction with a truthy pinned working key reuses it with
no test request; a falsy primary key raises `ValueError`; otherwise the
distinct configured keys (primary, secondary, tertiary, first occurrence only —
a repeated key string is skipped without a new test) are tested in order, keys
being skipped exactly when their test request quota-fails; the first key whose
test succeeds is pinned as the class-level working key; if every distinct key
quota-fails construction raises `YouTubeQuotaExceededError`; and a test request
failing with any non-quota error propagates that error immediately. -/
theorem client_init_key_rotation :
    (∀ env : YouTubeApiClient.InitEnv,
      YouTubeApiClient.truthy env.workingKey = true →
      YouTubeApiClient.clientInit env =
        ⟨YouTubeApiClient.InitResult.ok (env.workingKey.getD ""), env.workingKey, []⟩) ∧
    (∀ env : YouTubeApiClient.InitEnv,
      YouTubeApiClient.truthy env.workingKey = false →
      YouTubeApiClient.truthy
        (YouTubeApiClient.pyOrStr env.apiKeyArg env.envKey) = false →
      YouTubeApiClient.clientInit env =
        ⟨YouTubeApiClient.InitResult.error YouTubeApiClient.InitError.valueError,
          env.workingKey, []⟩) ∧
    (∀ env : YouTubeApiClient.InitEnv,
      YouTubeApiClient.truthy env.workingKey = false →
      YouTubeApiClient.truthy
        (YouTubeApiClient.pyOrStr env.apiKeyArg env.envKey) = true →
      ((YouTubeApiClient.dedupFirst (YouTubeApiClient.candidateKeys env)).dropWhile
          (fun k => env.test k == YouTubeApiClient.KeyTest.quotaFail) = [] →
        YouTubeApiClient.clientInit env =
          ⟨YouTubeApiClient.InitResult.error YouTubeApiClient.InitError.quotaExceeded,
            env.workingKey,
            YouTubeApiClient.dedupFirst (YouTubeApiClient.candidateKeys env)⟩) ∧
      (∀ k rest,
        (YouTubeApiClient.dedupFirst (YouTubeApiClient.candidateKeys env)).dropWhile
          (fun k => env.test k == YouTubeApiClient.KeyTest.quotaFail) = k :: rest →
        (env.test k = YouTubeApiClient.KeyTest.success →
          YouTubeApiClient.clientInit env =
            ⟨YouTubeApiClient.InitResult.ok k, some k,
              (YouTubeApiClient.dedupFirst (YouTubeApiClient.candidateKeys env)).takeWhile
                (fun k => env.test k == YouTubeApiClient.KeyTest.quotaFail) ++ [k]⟩) ∧
        (∀ e, env.test k = YouTubeApiClient.KeyTest.otherError e →
          YouTubeApiClient.clientInit env =
            ⟨YouTubeApiClient.InitResult.error (YouTubeApiClient.InitError.httpError e),
              env.workingKey,
              (YouTubeApiClient.dedupFirst (YouTubeApiClient.candidateKeys env)).takeWhile
                (fun k => env.test k == YouTubeApiClient.KeyTest.quotaFail) ++ [k]⟩))) := by
  refine ⟨?_, ?_, ?_⟩
  · intro env hw
    rw [YouTubeApiClient.clientInit, if_pos hw]
  · intro env hw hp
    rw [YouTubeApiClient.clientInit, if_neg (by simp [hw]),
      if_pos (by simp [hp])]
  · intro env hw hp
    have hinit : YouTubeApiClient.clientInit env =
        match YouTubeApiClient.specTry env.test
            (YouTubeApiClient.dedupFirst (YouTubeApiClient.candidateKeys env)) with
        | YouTubeApiClient.TryOutcome.success k ts =>
          ⟨YouTubeApiClient.InitResult.ok k, some k, ts⟩
        | YouTubeApiClient.TryOutcome.exhausted ts =>
          ⟨YouTubeApiClient.InitResult.error YouTubeApiClient.InitError.quotaExceeded,
            env.workingKey, ts⟩
        | YouTubeApiClient.TryOutcome.raised e ts =>
          ⟨YouTubeApiClient.InitResult.error (YouTubeApiClient.InitError.httpError e),
            env.workingKey, ts⟩ := by
      rw [YouTubeApiClient.clientInit, if_neg (by simp [hw]), if_neg (by simp [hp]),
        YouTubeApiClient.tryKeys_eq_specTry]
      rfl
    have hchar := YouTubeApiClient.specTry_characterisation env.test
      (YouTubeApiClient.dedupFirst (YouTubeApiClient.candidateKeys env))
    constructor
    · intro hdrop
      rw [hinit, hchar.1 hdrop]
    · intro k rest hdrop
      constructor
      · intro hk
        rw [hinit, (hchar.2 k rest hdrop).1 hk]
      · intro e hk
        rw [hinit, (hchar.2 k rest hdrop).2 e hk]

/-- Witness for `client_init_key_rotation`: primary key quota-fails, secondary
succeeds and is pinned. -/
theorem client_init_key_rotation_witness :
    YouTubeApiClient.clientInit
        ⟨none, some "KEYA", none, some "KEYB", none,
          fun k => if k == "KEYA" then YouTubeApiClient.KeyTest.quotaFail
            else YouTubeApiClient.KeyTest.success⟩ =
      ⟨YouTubeApiClient.InitResult.ok "KEYB", some "KEYB", ["KEYA", "KEYB"]⟩ :=
  ((client_init_key_rotation.2.2
      ⟨none, some "KEYA", none, some "KEYB", none,
        fun k => if k == "KEYA" then YouTubeApiClient.KeyTest.quotaFail
          else YouTubeApiClient.KeyTest.success⟩
      rfl rfl).2 "KEYB" [] rfl).1 rfl

/-- Counterexample to C1 as stated: when the only configured key's test request
fails with a non-quota error (here a 500), no key succeeds, yet construction
propagates that `HttpError` rather than raising `YouTubeQuotaExceededError`. -/
theorem client_init_other_error_cex :
    (YouTubeApiClient.clientInit
        ⟨none, some "KEYA", none, none, none,
          fun _ => YouTubeApiClient.KeyTest.otherError ⟨500, [], "Backend Error"⟩⟩).result =
      YouTubeApiClient.InitResult.error
        (YouTubeApiClient.InitError.httpError ⟨500, [], "Backend Error"⟩) ∧
    (YouTubeApiClient.clientInit
        ⟨none, some "KEYA", none, none, none,
          fun _ => YouTubeApiClient.KeyTest.otherError ⟨500, [], "Backend Error"⟩⟩).result ≠
      YouTubeApiClient.InitResult.error YouTubeApiClient.InitError.quotaExceeded := by
  exact ⟨rfl, by decide⟩

namespace LLMProc

mutual

/-- Python `str.format(text=text)` scanner over the template: literal
characters pass through, `{{`/`}}` unescape, `{...}` fields are interpolated,
and a stray `}` or an unknown field raises (modelled as `none`). -/
def fmtScan (text : String) : List Char → Option (List Char)
  | [] => some []
  | c :: rest =>
    if c = '{' then fmtBrace text rest
    else if c = '}' then
      match rest with
      | '}' :: rest2 => (fmtScan text rest2).map (fun r => '}' :: r)
      | _ => none
    else (fmtScan text rest).map (fun r => c :: r)

/-- After an opening `{`: either an escaped brace or a field name. -/
def fmtBrace (text : String) : List Char → Option (List Char)
  | [] => none
  | c :: rest =>
    if c = '{' then (fmtScan text rest).map (fun r => '{' :: r)
    else if c = '}' then none
    else fmtField text [c] rest

/-- Inside a `{...}` field: only the field name `text` resolves (the single
keyword argument of `.format(text=text)`); anything else raises `KeyError`. -/
def fmtField (text : String) (acc : List Char) : List Char → Option (List Char)
  | [] => none
  | c :: rest =>
    if c = '}' then
      if acc.reverse = "text".toList then
        (fmtScan text rest).map (fun r => text.toList ++ r)
      else none
    else fmtField text (c :: acc) rest

end

/-- `task.prompt_template.format(text=text)`
(src/youtube_analyzer/llm_processor.py line 196). -/
def pyFormatText (template text : String) : Option String :=
  (fmtScan text template.toList).map (fun cs => String.mk cs)

/-- LangChain `SystemMessage` / `HumanMessage` as passed to `client.invoke`. -/
inductive ChatMessage
  | system (content : String)
  | human (content : String)
deriving DecidableEq

/-- `Task` (src/youtube_analyzer/llm_processor.py lines 78-82). -/
structure Task where
  name : String
  description : String
  prompt_template : String

/-- `Role` (src/youtube_analyzer/llm_processor.py lines 27-31). -/
structure Role where
  name : String
  description : String
  system_prompt : Option String

/-- Observable outcome of `process_text`: the returned value and the message
lists sent to `client.invoke`, in order. -/
structure ProcessResult where
  result : Option String
  calls : List (List ChatMessage)
deriving DecidableEq

/-- `if role and role.system_prompt: messages.append(SystemMessage(...))`
(src/youtube_analyzer/llm_processor.py lines 192-193), with Python truthiness
of the optional prompt string. -/
def systemMessages (role : Option Role) : List ChatMessage :=
  match role with
  | some r =>
    match r.system_prompt with
    | some sp => if sp != "" then [ChatMessage.system sp] else []
    | none => []
  | none => []

/-- `LLMProcessor.process_text` (src/youtube_analyzer/llm_processor.py lines
177-210), abstracted over the hosted model `invoke` (which may raise): build
the message list, format the task template, invoke the model once, return
`response.content`; any exception is caught and `None` returned. -/
def process_text (invoke : List ChatMessage → Except String String)
    (text : String) (task : Task) (role : Option Role) : ProcessResult :=
  match pyFormatText task.prompt_template text with
  | none => ⟨none, []⟩
  | some fp =>
    match invoke (systemMessages role ++ [ChatMessage.human fp]) with
    | Except.ok resp => ⟨some resp, [systemMessages role ++ [ChatMessage.human fp]]⟩
    | Except.error _ => ⟨none, [systemMessages role ++ [ChatMessage.human fp]]⟩

end LLMProc

/-- C7: `process_text` sends exactly one model invocation, whose message list
is the role's system prompt (present exactly when a role carrying a truthy
system prompt is given) followed by one human message equal to the task
template with the input interpolated for `{text}`, and returns the model's
text response; an exception — a failing invocation, or a template that does
not format (then no invocation at all is sent) — yields `None` instead of
raising. -/
theorem process_text_spec
    (invoke : List LLMProc.ChatMessage → Except String String)
    (text : String) (task : LLMProc.Task) (role : Option LLMProc.Role) :
    (∀ fp, LLMProc.pyFormatText task.prompt_template text = some fp →
      (LLMProc.process_text invoke text task role).calls =
          [LLMProc.systemMessages role ++ [LLMProc.ChatMessage.human fp]] ∧
        (∀ r, invoke (LLMProc.systemMessages role ++ [LLMProc.ChatMessage.human fp]) =
            Except.ok r →
          (LLMProc.process_text invoke text task role).result = some r) ∧
        (∀ er, invoke (LLMProc.systemMessages role ++ [LLMProc.ChatMessage.human fp]) =
            Except.error er →
          (LLMProc.process_text invoke text task role).result = none)) ∧
    (LLMProc.pyFormatText task.prompt_template text = none →
      LLMProc.process_text invoke text task role = ⟨none, []⟩) ∧
    (∀ r sp, role = some r → r.system_prompt = some sp → sp ≠ "" →
      LLMProc.systemMessages role = [LLMProc.ChatMessage.system sp]) ∧
    (role = none → LLMProc.systemMessages role = []) ∧
    (∀ r, role = some r → (r.system_prompt = none ∨ r.system_prompt = some "") →
      LLMProc.systemMessages role = []) := by
  refine ⟨?_, ?_, ?_, ?_, ?_⟩
  · intro fp hfp
    refine ⟨?_, ?_, ?_⟩
    · rw [LLMProc.process_text, hfp]
      cases hi : invoke (LLMProc.systemMessages role ++ [LLMProc.ChatMessage.human fp]) <;>
        simp [hi]
    · intro r hi
      rw [LLMProc.process_text, hfp]
      simp [hi]
    · intro er hi
      rw [LLMProc.process_text, hfp]
      simp [hi]
  · intro hfp
    rw [LLMProc.process_text, hfp]
  · intro r sp hr hsp hne
    rw [hr, LLMProc.systemMessages, hsp]
    simp [hne]
  · intro hr
    rw [hr, LLMProc.systemMessages]
  · intro r hr hsp
    rcases hsp with hsp | hsp
    · rw [hr, LLMProc.systemMessages, hsp]
    · rw [hr, LLMProc.systemMessages, hsp]
      simp

/-- Witness for `process_text_spec`: a concrete role, task, input and a model
that answers. -/
theorem process_text_spec_witness :
    (LLMProc.process_text (fun _ => Except.ok "SUMMARY") "hello"
        ⟨"summarize", "d", "Summarize: {text}"⟩
        (some ⟨"analyst", "d", some "Be brief"⟩)).calls =
      [[LLMProc.ChatMessage.system "Be brief",
        LLMProc.ChatMessage.human "Summarize: hello"]] ∧
    (LLMProc.process_text (fun _ => Except.ok "SUMMARY") "hello"
        ⟨"summarize", "d", "Summarize: {text}"⟩
        (some ⟨"analyst", "d", some "Be brief"⟩)).result = some "SUMMARY" :=
  ⟨((process_text_spec (fun _ => Except.ok "SUMMARY") "hello"
      ⟨"summarize", "d", "Summarize: {text}"⟩
      (some ⟨"analyst", "d", some "Be brief"⟩)).1 "Summarize: hello" rfl).1,
   ((process_text_spec (fun _ => Except.ok "SUMMARY") "hello"
      ⟨"summarize", "d", "Summarize: {text}"⟩
      (some ⟨"analyst", "d", some "Be brief"⟩)).1 "Summarize: hello" rfl).2.1
      "SUMMARY" rfl⟩

namespace VideoLib

/-- Retry configuration constants of `Video`
(src/youtube_analyzer/libs/video.py lines 16-20). -/
def DEFAULT_MAX_RETRIES : Nat := 3

/-- Base backoff multiplier in seconds (configuration of the tenacity
decorator; timing is not otherwise modelled). -/
def RETRY_MULTIPLIER : Nat := 1

/-- Minimum wait between retries in seconds. -/
def RETRY_MIN_WAIT : Nat := 4

/-- Maximum wait between retries in seconds. -/
def RETRY_MAX_WAIT : Nat := 10

/-- The transcript-related state of a `Video`: `self.transcript` and
`self._transcript_fetched`. -/
structure VideoTState where
  transcript : Option (Option String × Option String)
  transcriptFetched : Bool
deriving DecidableEq

/-- Outcome of `YouTubeTranscriptApi.list_transcripts(video_id)`: the available
transcripts keyed by language code (merging manual and generated, as observed
through `find_transcript`), or the exceptions the transcript API raises. -/
inductive ListOutcome
  | ok (avail : String → Option String)
  | disabled
  | otherError

/-- `transcript_list.find_transcript(['en', 'zh-Hans', 'zh'])`: the first
language code in the list with an available transcript; `none` models the
`NoTranscriptFound` it otherwise raises. -/
def find_transcript (avail : String → Option String) : List String → Option (String × String)
  | [] => none
  | l :: rest =>
    match avail l with
    | some t => some (t, l)
    | none => find_transcript avail rest

/-- One attempt of the `get_transcript` body
(src/youtube_analyzer/libs/video.py lines 91-139).  The cache check returns the
stored pair; a found transcript is joined, transformed and cached; both
`except` arms — `(TranscriptsDisabled, NoTranscriptFound)` and the blanket
`except Exception` — return `(None, None)`, so the body always returns
normally and never re-raises. -/
def get_transcript_body (st : VideoTState) (lo : ListOutcome) :
    (Option String × Option String) × VideoTState :=
  if st.transcript ≠ none ∧ st.transcriptFetched then
    (st.transcript.getD (none, none), st)
  else
    match lo with
    | ListOutcome.ok avail =>
      match find_transcript avail ["en", "zh-Hans", "zh"] with
      | some (t, l) =>
        ((some (transform_transcript_for_readability t l), some l),
          ⟨some (some (transform_transcript_for_readability t l), some l), true⟩)
      | none => ((none, none), ⟨some (none, none), false⟩)
    | ListOutcome.disabled => ((none, none), ⟨some (none, none), false⟩)
    | ListOutcome.otherError => ((none, none), ⟨some (none, none), false⟩)

/-- tenacity `@retry(stop=stop_after_attempt(n))`: re-call the wrapped body
while it raises, up to `n` attempts, re-raising the last exception; returns the
outcome and the number of attempts made.  The body here is deterministic. -/
def tenacityRetry (A : Type) : Nat → Except String A → Except String A × Nat
  | 0, body => (body, 0)
  | 1, body => (body, 1)
  | n + 2, body =>
    match body with
    | Except.ok a => (Except.ok a, 1)
    | Except.error _ =>
      match tenacityRetry A (n + 1) body with
      | (r, c) => (r, c + 1)

/-- `Video.get_transcript` (src/youtube_analyzer/libs/video.py lines 82-139):
the tenacity-wrapped body.  Because the body catches every exception and
returns normally, the wrapper always stops after the first attempt. -/
def get_transcript (st : VideoTState) (lo : ListOutcome) :
    Except String ((Option String × Option String) × VideoTState) × Nat :=
  tenacityRetry _ DEFAULT_MAX_RETRIES (Except.ok (get_transcript_body st lo))

end VideoLib

/-- C2 (amended): `get_transcript` terminates in exactly these ways, each on
the first attempt (the configured tenacity policy — 3 attempts, exponential
backoff with multiplier 1 bounded between 4 and 10 seconds — never fires
because the body catches every exception): a cached pair is returned as is; on
success the pair (transformed text, language code) for the first language of
the fallback order English, zh-Hans, zh is returned and cached; when no
transcript is available (`TranscriptsDisabled` or `NoTranscriptFound`) it
returns `(None, None)`; and on any other exception it likewise returns
`(None, None)` without retrying and without re-raising. -/
theorem get_transcript_outcomes :
    (∀ (st : VideoLib.VideoTState) (lo : VideoLib.ListOutcome) (p : Option String × Option String),
      st.transcript = some p → st.transcriptFetched = true →
      VideoLib.get_transcript st lo = (Except.ok (p, st), 1)) ∧
    (∀ (st : VideoLib.VideoTState) (avail : String → Option String) (t l : String),
      st.transcript = none ∨ st.transcriptFetched = false →
      VideoLib.find_transcript avail ["en", "zh-Hans", "zh"] = some (t, l) →
      VideoLib.get_transcript st (VideoLib.ListOutcome.ok avail) =
        (Except.ok ((some (VideoLib.transform_transcript_for_readability t l), some l),
          ⟨some (some (VideoLib.transform_transcript_for_readability t l), some l), true⟩), 1)) ∧
    (∀ (avail : String → Option String) (t l : String),
      VideoLib.find_transcript avail ["en", "zh-Hans", "zh"] = some (t, l) →
      avail l = some t ∧
        (l = "en" ∨ (l = "zh-Hans" ∧ avail "en" = none) ∨
          (l = "zh" ∧ avail "en" = none ∧ avail "zh-Hans" = none))) ∧
    (∀ (st : VideoLib.VideoTState) (avail : String → Option String),
      st.transcript = none ∨ st.transcriptFetched = false →
      VideoLib.find_transcript avail ["en", "zh-Hans", "zh"] = none →
      VideoLib.get_transcript st (VideoLib.ListOutcome.ok avail) =
        (Except.ok ((none, none), ⟨some (none, none), false⟩), 1)) ∧
    (∀ (st : VideoLib.VideoTState),
      st.transcript = none ∨ st.transcriptFetched = false →
      VideoLib.get_transcript st VideoLib.ListOutcome.disabled =
        (Except.ok ((none, none), ⟨some (none, none), false⟩), 1)) ∧
    (∀ (st : VideoLib.VideoTState),
      st.transcript = none ∨ st.transcriptFetched = false →
      VideoLib.get_transcript st VideoLib.ListOutcome.otherError =
        (Except.ok ((none, none), ⟨some (none, none), false⟩), 1)) ∧
    (VideoLib.DEFAULT_MAX_RETRIES = 3 ∧ VideoLib.RETRY_MULTIPLIER = 1 ∧
      VideoLib.RETRY_MIN_WAIT = 4 ∧ VideoLib.RETRY_MAX_WAIT = 10) := by
  have hfresh : ∀ (st : VideoLib.VideoTState),
      st.transcript = none ∨ st.transcriptFetched = false →
      ¬(st.transcript ≠ none ∧ st.transcriptFetched = true) := by
    intro st h hc
    rcases h with h | h
    · exact hc.1 h
    · rw [h] at hc
      exact Bool.false_ne_true hc.2
  refine ⟨?_, ?_, ?_, ?_, ?_, ?_, by decide⟩
  · intro st lo p hp hf
    rw [VideoLib.get_transcript, VideoLib.get_transcript_body.eq_def,
      if_pos ⟨by rw [hp]; exact fun h => Option.noConfusion h, hf⟩, hp]
    rfl
  · intro st avail t l hfr hfind
    rw [VideoLib.get_transcript, VideoLib.get_transcript_body.eq_def,
      if_neg (hfresh st hfr)]
    simp only [hfind]
    rfl
  · intro avail t l hfind
    simp only [VideoLib.find_transcript] at hfind
    cases hen : avail "en" with
    | some te =>
      rw [hen] at hfind
      cases hfind
      exact ⟨hen, Or.inl rfl⟩
    | none =>
      rw [hen] at hfind
      cases hzh : avail "zh-Hans" with
      | some tz =>
        rw [hzh] at hfind
        cases hfind
        exact ⟨hzh, Or.inr (Or.inl ⟨rfl, rfl⟩)⟩
      | none =>
        rw [hzh] at hfind
        cases hz : avail "zh" with
        | some tc =>
          rw [hz] at hfind
          cases hfind
          exact ⟨hz, Or.inr (Or.inr ⟨rfl, rfl, rfl⟩)⟩
        | none =>
          rw [hz] at hfind
          cases hfind
  · intro st avail hfr hfind
    rw [VideoLib.get_transcript, VideoLib.get_transcript_body.eq_def,
      if_neg (hfresh st hfr)]
    simp only [hfind]
    rfl
  · intro st hfr
    rw [VideoLib.get_transcript, VideoLib.get_transcript_body.eq_def,
      if_neg (hfresh st hfr)]
    rfl
  · intro st hfr
    rw [VideoLib.get_transcript, VideoLib.get_transcript_body.eq_def,
      if_neg (hfresh st hfr)]
    rfl

/-- Witness for `get_transcript_outcomes`: a fresh state and a video that only
has a Chinese transcript. -/
theorem get_transcript_outcomes_witness :
    VideoLib.get_transcript ⟨none, false⟩
        (VideoLib.ListOutcome.ok (fun l => if l == "zh" then some "ni hao" else none)) =
      (Except.ok ((some "ni hao", some "zh"),
        ⟨some (some "ni hao", some "zh"), true⟩), 1) :=
  get_transcript_outcomes.2.1 ⟨none, false⟩
    (fun l => if l == "zh" then some "ni hao" else none) "ni hao" "zh"
    (Or.inl rfl) rfl

/-- Counterexample to C2 as stated: with a fresh state and a transcript fetch
that raises an unexpected exception, `get_transcript` neither retries (one
attempt, not the configured 3) nor re-raises — it returns `(None, None)`
normally. -/
theorem get_transcript_no_retry_cex :
    VideoLib.get_transcript ⟨none, false⟩ VideoLib.ListOutcome.otherError =
        (Except.ok ((none, none), ⟨some (none, none), false⟩), 1) ∧
      (VideoLib.get_transcript ⟨none, false⟩ VideoLib.ListOutcome.otherError).2 ≠
        VideoLib.DEFAULT_MAX_RETRIES :=
  ⟨rfl, by decide⟩

namespace VideoLib

/-- JSON values as written by `json.dump` and read back by `json.load`
(`ensure_ascii=False`; the byte-level encoding round-trips and is not
re-modelled). -/
inductive Json
  | null
  | str (s : String)
  | num (n : Nat)
  | arr (xs : List Json)
  | obj (fields : List (String × Json))

/-- An aware Python `datetime` as `Video` produces it
(`strptime(..., "%Y-%m-%dT%H:%M:%SZ").replace(tzinfo=UTC).astimezone(tz)`):
microsecond 0 and a whole-minute UTC offset. -/
structure PyDateTime where
  year : Nat
  month : Nat
  day : Nat
  hour : Nat
  minute : Nat
  second : Nat
  offMinutes : Int
deriving DecidableEq

/-- The ranges Python's `datetime` enforces on an aware datetime. -/
def PyDateTime.Valid (d : PyDateTime) : Prop :=
  1 ≤ d.year ∧ d.year ≤ 9999 ∧ 1 ≤ d.month ∧ d.month ≤ 12 ∧ 1 ≤ d.day ∧ d.day ≤ 31 ∧
    d.hour ≤ 23 ∧ d.minute ≤ 59 ∧ d.second ≤ 59 ∧ d.offMinutes.natAbs < 1440

instance (d : PyDateTime) : Decidable d.Valid := by
  unfold PyDateTime.Valid
  infer_instance

/-- Two zero-padded decimal digits. -/
def pad2 (n : Nat) : List Char := [Nat.digitChar (n / 10 % 10), Nat.digitChar (n % 10)]

/-- Four zero-padded decimal digits. -/
def pad4 (n : Nat) : List Char :=
  [Nat.digitChar (n / 1000 % 10), Nat.digitChar (n / 100 % 10),
    Nat.digitChar (n / 10 % 10), Nat.digitChar (n % 10)]

/-- The `±HH:MM` suffix `datetime.isoformat` prints for the UTC offset. -/
def isoOffset (om : Int) : List Char :=
  if 0 ≤ om then
    '+' :: (pad2 (om.toNat / 60) ++ ':' :: pad2 (om.toNat % 60))
  else
    '-' :: (pad2 (om.natAbs / 60) ++ ':' :: pad2 (om.natAbs % 60))

/-- `datetime.isoformat()` on an aware datetime with microsecond 0:
`YYYY-MM-DDTHH:MM:SS±HH:MM`, as a character list. -/
def isoformatL (d : PyDateTime) : List Char :=
  pad4 d.year ++ '-' :: (pad2 d.month ++ '-' :: (pad2 d.day ++ 'T' ::
    (pad2 d.hour ++ ':' :: (pad2 d.minute ++ ':' ::
      (pad2 d.second ++ isoOffset d.offMinutes)))))

/-- `datetime.isoformat()` as used by `Video.to_dict`. -/
def isoformat (d : PyDateTime) : String := String.mk (isoformatL d)

/-- Parse exactly two decimal digits. -/
def parse2 : List Char → Option (Nat × List Char)
  | a :: b :: rest =>
    if a.isDigit && b.isDigit then
      some (RazorbackUtils.digitVal a * 10 + RazorbackUtils.digitVal b, rest)
    else none
  | _ => none

/-- Parse exactly four decimal digits. -/
def parse4 : List Char → Option (Nat × List Char)
  | a :: b :: c :: d :: rest =>
    if a.isDigit && b.isDigit && c.isDigit && d.isDigit then
      some (RazorbackUtils.digitVal a * 1000 + RazorbackUtils.digitVal b * 100 +
        RazorbackUtils.digitVal c * 10 + RazorbackUtils.digitVal d, rest)
    else none
  | _ => none

/-- Expect one fixed character. -/
def expectCh (c : Char) : List Char → Option (List Char)
  | x :: rest => if x = c then some rest else none
  | [] => none

/-- `datetime.fromisoformat` restricted to the aware
`YYYY-MM-DDTHH:MM:SS±HH:MM` format that `Video` round-trips (Python accepts
further formats this code never produces). -/
def fromisoformatL (cs0 : List Char) : Option PyDateTime :=
  match parse4 cs0 with
  | none => none
  | some (y, cs) =>
  match expectCh '-' cs with
  | none => none
  | some cs =>
  match parse2 cs with
  | none => none
  | some (mo, cs) =>
  match expectCh '-' cs with
  | none => none
  | some cs =>
  match parse2 cs with
  | none => none
  | some (da, cs) =>
  match expectCh 'T' cs with
  | none => none
  | some cs =>
  match parse2 cs with
  | none => none
  | some (h, cs) =>
  match expectCh ':' cs with
  | none => none
  | some cs =>
  match parse2 cs with
  | none => none
  | some (mi, cs) =>
  match expectCh ':' cs with
  | none => none
  | some cs =>
  match parse2 cs with
  | none => none
  | some (se, cs) =>
  match cs with
  | [] => none
  | sign :: cs =>
    if sign = '+' ∨ sign = '-' then
      match parse2 cs with
      | none => none
      | some (oh, cs) =>
      match expectCh ':' cs with
      | none => none
      | some cs =>
      match parse2 cs with
      | none => none
      | some (om2, cs) =>
      match cs with
      | [] => some ⟨y, mo, da, h, mi, se,
          if sign = '+' then (oh * 60 + om2 : Int) else -((oh : Int) * 60 + om2)⟩
      | _ => none
    else none

/-- `datetime.fromisoformat` on a string. -/
def fromisoformat (s : String) : Option PyDateTime := fromisoformatL s.toList

/-- Python `value.replace('Z', '+00:00')` as applied by `set_published_at`
(src/youtube_analyzer/libs/video.py line 253). -/
def replaceZ (s : String) : String :=
  String.mk (s.toList.foldr
    (fun c acc => if c = 'Z' then '+' :: '0' :: '0' :: ':' :: '0' :: '0' :: acc
      else c :: acc) [])

/-- The fields of a `Video` object that serialisation touches
(src/youtube_analyzer/libs/video.py lines 22-35). -/
structure VideoData where
  video_id : String
  title : Option String
  published_at : Option PyDateTime
  duration_minutes : Option Nat
  channel_id : Option String
  channel_name : Option String
  transcript : Option (Option String × Option String)
  metadataFetched : Bool
  transcriptFetched : Bool

/-- A Python `str`-or-`None` as JSON. -/
def optStr : Option String → Json
  | none => Json.null
  | some s => Json.str s

/-- A Python number-or-`None` as JSON. -/
def optNumJson : Option Nat → Json
  | some n => Json.num n
  | none => Json.null

/-- `self.published_at.isoformat() if self.published_at else None`. -/
def pubJson : Option PyDateTime → Json
  | some d => Json.str (isoformat d)
  | none => Json.null

/-- The transcript pair as JSON (`json.dump` writes the tuple as an array). -/
def transcriptJson : Option (Option String × Option String) → Json
  | some (t, l) => Json.arr [optStr t, optStr l]
  | none => Json.null

/-- `Video.to_dict` (src/youtube_analyzer/libs/video.py lines 167-181) on a
video whose metadata is already fetched (otherwise the method first performs
the network fetch, which is out of scope here). -/
def to_dict (v : VideoData) : Json :=
  Json.obj [
    ("Video ID", Json.str v.video_id),
    ("URL", Json.str ("https://www.youtube.com/watch?v=" ++ v.video_id)),
    ("Title", optStr v.title),
    ("Published At", pubJson v.published_at),
    ("Duration (minutes)", optNumJson v.duration_minutes),
    ("Channel ID", optStr v.channel_id),
    ("Channel Name", optStr v.channel_name),
    ("Transcript", transcriptJson v.transcript)]

/-- `Video.serialize_video_to_json` (src/youtube_analyzer/libs/video.py lines
200-228) on an already-fetched video: `None` (no file written) when the title
is falsy (`if not self.title`), else the JSON written to the file; file naming
and the filesystem are out of scope. -/
def serialize_video_to_json (v : VideoData) : Option Json :=
  if v.title = none ∨ v.title = some "" then none
  else some (to_dict v)

/-- `data[key]` on the parsed JSON object (a missing key raises `KeyError`,
modelled as `none`). -/
def jGet (j : Json) (k : String) : Option Json :=
  match j with
  | Json.obj fields =>
    match fields.find? (fun p => p.1 == k) with
    | some p => some p.2
    | none => none
  | _ => none

/-- A JSON value that this code stores where a `str`-or-`None` field lives. -/
def asOptStr : Json → Option (Option String)
  | Json.null => some none
  | Json.str s => some (some s)
  | _ => none

/-- A JSON value holding a `str`. -/
def asStr : Json → Option String
  | Json.str s => some s
  | _ => none

/-- A JSON value holding a number-or-`None`. -/
def asOptNum : Json → Option (Option Nat)
  | Json.null => some none
  | Json.num n => some (some n)
  | _ => none

/-- `Video.create_from_json_file` (src/youtube_analyzer/libs/video.py lines
230-248) on the parsed JSON value: construct the video, assign the stored
fields, parse `Published At` when truthy (via `replace('Z', '+00:00')` and
`fromisoformat`), set `_metadata_fetched = True` and
`_transcript_fetched = bool(transcript and transcript[0])`. -/
def create_from_json_file (j : Json) : Option VideoData :=
  match (jGet j "Video ID").bind asStr with
  | none => none
  | some vid =>
  match (jGet j "Title").bind asOptStr with
  | none => none
  | some title =>
  match (jGet j "Duration (minutes)").bind asOptNum with
  | none => none
  | some dur =>
  match (jGet j "Channel ID").bind asOptStr with
  | none => none
  | some cid =>
  match (jGet j "Channel Name").bind asOptStr with
  | none => none
  | some cname =>
  match jGet j "Transcript" with
  | none => none
  | some tj =>
  match (match tj with
    | Json.null => some (none : Option (Option String × Option String))
    | Json.arr [a, b] =>
      (match asOptStr a, asOptStr b with
        | some ta, some tb => some (some (ta, tb))
        | _, _ => none)
    | _ => none) with
  | none => none
  | some transcript =>
  match jGet j "Published At" with
  | none => none
  | some pj =>
  match (match pj with
    | Json.null => some (none : Option PyDateTime)
    | Json.str s =>
      if s = "" then some none else (fromisoformat (replaceZ s)).map some
    | _ => none) with
  | none => none
  | some published =>
    some ⟨vid, title, published, dur, cid, cname, transcript, true,
      match transcript with
      | some (some t, _) => t != ""
      | _ => false⟩

end VideoLib

namespace VideoLib

theorem digitChar_spec (k : Nat) (hk : k < 10) :
    (Nat.digitChar k).isDigit = true ∧ RazorbackUtils.digitVal (Nat.digitChar k) = k ∧
      Nat.digitChar k ≠ 'Z' := by
  interval_cases k <;> exact ⟨by decide, by decide, by decide⟩

theorem parse2_pad2 (n : Nat) (hn : n ≤ 99) (rest : List Char) :
    parse2 (pad2 n ++ rest) = some (n, rest) := by
  have h1 := digitChar_spec (n / 10 % 10) (Nat.mod_lt _ (by norm_num))
  have h2 := digitChar_spec (n % 10) (Nat.mod_lt _ (by norm_num))
  simp only [pad2, List.cons_append, List.nil_append, parse2, h1.1, h2.1, Bool.and_self,
    if_true]
  rw [h1.2.1, h2.2.1]
  have harith : n / 10 % 10 * 10 + n % 10 = n := by omega
  rw [harith]

theorem parse2_pad2_nil (n : Nat) (hn : n ≤ 99) : parse2 (pad2 n) = some (n, []) := by
  rw [← List.append_nil (pad2 n)]
  exact parse2_pad2 n hn []

theorem parse4_pad4 (n : Nat) (hn : n ≤ 9999) (rest : List Char) :
    parse4 (pad4 n ++ rest) = some (n, rest) := by
  have h1 := digitChar_spec (n / 1000 % 10) (Nat.mod_lt _ (by norm_num))
  have h2 := digitChar_spec (n / 100 % 10) (Nat.mod_lt _ (by norm_num))
  have h3 := digitChar_spec (n / 10 % 10) (Nat.mod_lt _ (by norm_num))
  have h4 := digitChar_spec (n % 10) (Nat.mod_lt _ (by norm_num))
  simp only [pad4, List.cons_append, List.nil_append, parse4, h1.1, h2.1, h3.1, h4.1,
    Bool.and_self, if_true]
  rw [h1.2.1, h2.2.1, h3.2.1, h4.2.1]
  have harith : n / 1000 % 10 * 1000 + n / 100 % 10 * 100 + n / 10 % 10 * 10 + n % 10 = n := by
    omega
  rw [harith]

theorem expectCh_cons (c : Char) (rest : List Char) : expectCh c (c :: rest) = some rest := by
  simp [expectCh]

theorem fromiso_iso (d : PyDateTime) (h : d.Valid) :
    fromisoformatL (isoformatL d) = some d := by
  obtain ⟨hy1, hy2, hm1, hm2, hd1, hd2, hh, hmi, hs, ho⟩ := h
  rw [isoformatL, fromisoformatL]
  rw [parse4_pad4 d.year (by omega)]
  simp only [Option.some_bind, expectCh_cons, parse2_pad2 d.month (by omega),
    parse2_pad2 d.day (by omega), parse2_pad2 d.hour (by omega),
    parse2_pad2 d.minute (by omega), parse2_pad2 d.second (by omega)]
  by_cases hsign : 0 ≤ d.offMinutes
  · rw [show isoOffset d.offMinutes =
        '+' :: (pad2 (d.offMinutes.toNat / 60) ++ ':' :: pad2 (d.offMinutes.toNat % 60))
      from by rw [isoOffset, if_pos hsign]]
    have hoh : d.offMinutes.toNat / 60 ≤ 99 := by omega
    have hom : d.offMinutes.toNat % 60 ≤ 99 := by omega
    simp only [parse2_pad2 (d.offMinutes.toNat / 60) hoh, Option.some_bind, expectCh_cons,
      parse2_pad2_nil (d.offMinutes.toNat % 60) hom]
    simp
    rw [sup_eq_left.mpr hsign]
    have h2 : d.offMinutes / 60 * 60 + d.offMinutes % 60 = d.offMinutes := by omega
    rw [h2]
  · rw [show isoOffset d.offMinutes =
        '-' :: (pad2 (d.offMinutes.natAbs / 60) ++ ':' :: pad2 (d.offMinutes.natAbs % 60))
      from by rw [isoOffset, if_neg hsign]]
    have hoh : d.offMinutes.natAbs / 60 ≤ 99 := by omega
    have hom : d.offMinutes.natAbs % 60 ≤ 99 := by omega
    simp only [parse2_pad2 (d.offMinutes.natAbs / 60) hoh, Option.some_bind, expectCh_cons,
      parse2_pad2_nil (d.offMinutes.natAbs % 60) hom]
    simp
    have habs : |d.offMinutes| = -d.offMinutes := abs_of_nonpos (by omega)
    rw [habs]
    have h2 : -(-d.offMinutes % 60) + -(-d.offMinutes / 60 * 60) = d.offMinutes := by omega
    rw [h2]

end VideoLib

namespace VideoLib

theorem foldr_replace_no_Z (cs : List Char) (h : ∀ c ∈ cs, c ≠ 'Z') :
    cs.foldr (fun c acc => if c = 'Z' then '+' :: '0' :: '0' :: ':' :: '0' :: '0' :: acc
      else c :: acc) [] = cs := by
  induction cs with
  | nil => rfl
  | cons c t ih =>
    rw [List.foldr_cons, if_neg (h c (by simp)), ih (fun x hx => h x (by simp [hx]))]

theorem pad2_no_Z (n : Nat) : ∀ c ∈ pad2 n, c ≠ 'Z' := by
  intro c hc
  simp only [pad2, List.mem_cons, List.not_mem_nil, or_false] at hc
  rcases hc with h | h <;> subst h <;>
    exact (digitChar_spec _ (Nat.mod_lt _ (by norm_num))).2.2

theorem pad4_no_Z (n : Nat) : ∀ c ∈ pad4 n, c ≠ 'Z' := by
  intro c hc
  simp only [pad4, List.mem_cons, List.not_mem_nil, or_false] at hc
  rcases hc with h | h | h | h <;> subst h <;>
    exact (digitChar_spec _ (Nat.mod_lt _ (by norm_num))).2.2

theorem isoOffset_no_Z (om : Int) : ∀ c ∈ isoOffset om, c ≠ 'Z' := by
  intro c hc
  unfold isoOffset at hc
  split at hc <;>
  · simp only [List.mem_cons, List.mem_append] at hc
    rcases hc with h | h | h | h
    · subst h; decide
    · exact pad2_no_Z _ c h
    · subst h; decide
    · exact pad2_no_Z _ c h

theorem isoformatL_no_Z (d : PyDateTime) : ∀ c ∈ isoformatL d, c ≠ 'Z' := by
  intro c hc
  simp only [isoformatL, List.mem_append, List.mem_cons] at hc
  rcases hc with h | h | h | h | h | h | h | h | h | h | h | h
  · exact pad4_no_Z _ c h
  · subst h; decide
  · exact pad2_no_Z _ c h
  · subst h; decide
  · exact pad2_no_Z _ c h
  · subst h; decide
  · exact pad2_no_Z _ c h
  · subst h; decide
  · exact pad2_no_Z _ c h
  · subst h; decide
  · exact pad2_no_Z _ c h
  · exact isoOffset_no_Z _ c h

/-- `isoformat` output never contains `'Z'`, so the `replace('Z', '+00:00')`
of `set_published_at` is the identity on it. -/
theorem replaceZ_isoformat (d : PyDateTime) : replaceZ (isoformat d) = isoformat d :=
  congrArg String.mk (foldr_replace_no_Z (isoformatL d) (isoformatL_no_Z d))

theorem fromiso_replaceZ_iso (d : PyDateTime) (h : d.Valid) :
    fromisoformat (replaceZ (isoformat d)) = some d := by
  rw [replaceZ_isoformat d]
  exact fromiso_iso d h

theorem isoformat_ne_empty (d : PyDateTime) : isoformat d ≠ "" := by
  intro he
  have := congrArg String.toList he
  simp [isoformat, isoformatL, pad4, String.toList] at this

end VideoLib

/-- C5 (amended): for every Video whose metadata has been fetched, with a
non-None and non-empty title, a non-None published timestamp, channel name and
transcript pair, serialising to JSON and reconstructing with
`create_from_json_file` yields a Video with the same title, the same
transcript pair, the same channel name and the same published timestamp. -/
theorem serialize_roundtrip (v : VideoLib.VideoData) (t : String)
    (d : VideoLib.PyDateTime) (cn : String) (tp : Option String × Option String)
    (hmf : v.metadataFetched = true)
    (htitle : v.title = some t) (htne : t ≠ "")
    (hpub : v.published_at = some d) (hval : d.Valid)
    (hcn : v.channel_name = some cn)
    (htr : v.transcript = some tp) :
    ((VideoLib.serialize_video_to_json v).bind VideoLib.create_from_json_file).map
        VideoLib.VideoData.title = some v.title ∧
    ((VideoLib.serialize_video_to_json v).bind VideoLib.create_from_json_file).map
        VideoLib.VideoData.transcript = some v.transcript ∧
    ((VideoLib.serialize_video_to_json v).bind VideoLib.create_from_json_file).map
        VideoLib.VideoData.channel_name = some v.channel_name ∧
    ((VideoLib.serialize_video_to_json v).bind VideoLib.create_from_json_file).map
        VideoLib.VideoData.published_at = some v.published_at := by
  obtain ⟨vid, title, pub, dur, cid, cname, tr, mf, tf⟩ := v
  simp only at htitle hpub hcn htr
  subst htitle hpub hcn htr
  obtain ⟨ta, tb⟩ := tp
  have hser : VideoLib.serialize_video_to_json
      ⟨vid, some t, some d, dur, cid, some cn, some (ta, tb), mf, tf⟩ =
      some (VideoLib.to_dict ⟨vid, some t, some d, dur, cid, some cn, some (ta, tb), mf, tf⟩) := by
    rw [VideoLib.serialize_video_to_json, if_neg (by simp [htne])]
  have h1 : VideoLib.jGet (VideoLib.to_dict
      ⟨vid, some t, some d, dur, cid, some cn, some (ta, tb), mf, tf⟩) "Video ID" =
      some (VideoLib.Json.str vid) := rfl
  have h2 : VideoLib.jGet (VideoLib.to_dict
      ⟨vid, some t, some d, dur, cid, some cn, some (ta, tb), mf, tf⟩) "Title" =
      some (VideoLib.optStr (some t)) := rfl
  have h3 : VideoLib.jGet (VideoLib.to_dict
      ⟨vid, some t, some d, dur, cid, some cn, some (ta, tb), mf, tf⟩) "Duration (minutes)" =
      some (VideoLib.optNumJson dur) := rfl
  have h4 : VideoLib.jGet (VideoLib.to_dict
      ⟨vid, some t, some d, dur, cid, some cn, some (ta, tb), mf, tf⟩) "Channel ID" =
      some (VideoLib.optStr cid) := rfl
  have h5 : VideoLib.jGet (VideoLib.to_dict
      ⟨vid, some t, some d, dur, cid, some cn, some (ta, tb), mf, tf⟩) "Channel Name" =
      some (VideoLib.optStr (some cn)) := rfl
  have h6 : VideoLib.jGet (VideoLib.to_dict
      ⟨vid, some t, some d, dur, cid, some cn, some (ta, tb), mf, tf⟩) "Transcript" =
      some (VideoLib.transcriptJson (some (ta, tb))) := rfl
  have h7 : VideoLib.jGet (VideoLib.to_dict
      ⟨vid, some t, some d, dur, cid, some cn, some (ta, tb), mf, tf⟩) "Published At" =
      some (VideoLib.pubJson (some d)) := rfl
  have hifc : (VideoLib.isoformat d = "") = False := by
    simp [VideoLib.isoformat_ne_empty d]
  have hasOptStr : ∀ o : Option String, VideoLib.asOptStr (VideoLib.optStr o) = some o := by
    intro o
    cases o <;> rfl
  have hasOptNum : ∀ o : Option Nat, VideoLib.asOptNum (VideoLib.optNumJson o) = some o := by
    intro o
    cases o <;> rfl
  rw [hser]
  simp only [Option.some_bind, VideoLib.create_from_json_file, h1, h2, h3, h4, h5, h6, h7,
    VideoLib.asStr, hasOptStr, hasOptNum, VideoLib.transcriptJson, VideoLib.pubJson,
    hifc, if_false, VideoLib.fromiso_replaceZ_iso d hval, Option.map_some']
  exact ⟨trivial, trivial, trivial, trivial⟩

/-- Witness for `serialize_roundtrip` at a concrete fetched video. -/
theorem serialize_roundtrip_witness :
    ((VideoLib.serialize_video_to_json
          ⟨"vid12345678", some "Test Video", some ⟨2024, 1, 15, 10, 30, 0, -360⟩, some 12,
            some "chanid", some "Channel Name", some (some "transcript text", some "en"),
            true, true⟩).bind VideoLib.create_from_json_file).map
        VideoLib.VideoData.title = some (some "Test Video") ∧
    ((VideoLib.serialize_video_to_json
          ⟨"vid12345678", some "Test Video", some ⟨2024, 1, 15, 10, 30, 0, -360⟩, some 12,
            some "chanid", some "Channel Name", some (some "transcript text", some "en"),
            true, true⟩).bind VideoLib.create_from_json_file).map
        VideoLib.VideoData.transcript = some (some (some "transcript text", some "en")) ∧
    ((VideoLib.serialize_video_to_json
          ⟨"vid12345678", some "Test Video", some ⟨2024, 1, 15, 10, 30, 0, -360⟩, some 12,
            some "chanid", some "Channel Name", some (some "transcript text", some "en"),
            true, true⟩).bind VideoLib.create_from_json_file).map
        VideoLib.VideoData.channel_name = some (some "Channel Name") ∧
    ((VideoLib.serialize_video_to_json
          ⟨"vid12345678", some "Test Video", some ⟨2024, 1, 15, 10, 30, 0, -360⟩, some 12,
            some "chanid", some "Channel Name", some (some "transcript text", some "en"),
            true, true⟩).bind VideoLib.create_from_json_file).map
        VideoLib.VideoData.published_at = some (some ⟨2024, 1, 15, 10, 30, 0, -360⟩) :=
  serialize_roundtrip
    ⟨"vid12345678", some "Test Video", some ⟨2024, 1, 15, 10, 30, 0, -360⟩, some 12,
      some "chanid", some "Channel Name", some (some "transcript text", some "en"),
      true, true⟩
    "Test Video" ⟨2024, 1, 15, 10, 30, 0, -360⟩ "Channel Name"
    (some "transcript text", some "en") rfl rfl (by decide) rfl (by decide) rfl rfl

/-- Counterexample to C5 as stated: a fetched video with the non-None but
empty title `""` is not serialised at all (`if not self.title` writes no file
and returns `None`), so the claimed round-trip cannot reproduce it. -/
theorem serialize_empty_title_cex :
    VideoLib.serialize_video_to_json
        ⟨"vid12345678", some "", some ⟨2024, 1, 15, 10, 30, 0, 0⟩, some 12, some "chanid",
          some "Channel Name", some (some "words", some "en"), true, true⟩ = none ∧
    (VideoLib.serialize_video_to_json
        ⟨"vid12345678", some "", some ⟨2024, 1, 15, 10, 30, 0, 0⟩, some 12, some "chanid",
          some "Channel Name", some (some "words", some "en"), true, true⟩).bind
      VideoLib.create_from_json_file = none :=
  ⟨rfl, rfl⟩
